import Mathlib

/-!
Verification development for the FedChecker repository.

The Python data model and operations are shallowly embedded as Lean
definitions: enumerations become inductive types, dataclasses become
structures, pure methods become functions, and each check probe becomes a
function from an input structure (holding the values the probe reads from
the system: command outputs, parsed fields, environment flags) to a
`CheckResult`.  Python floats used by the score are modelled by exact
rationals; subprocess execution is modelled by an explicit environment
function plus an effect trace.
-/

namespace FedChecks

/-- Character-list prefix test (helper for the substring test). -/
def charsPre : List Char → List Char → Bool
  | [], _ => true
  | _ :: _, [] => false
  | a :: as, b :: bs => a == b && charsPre as bs

/-- Character-list infix test (helper for the substring test). -/
def charsInfix (sub : List Char) : List Char → Bool
  | [] => sub.isEmpty
  | b :: bs => charsPre sub (b :: bs) || charsInfix sub bs

/-- Substring test: Python's `sub in s`. -/
def strContains (s sub : String) : Bool :=
  charsInfix sub.toList s.toList

/-- Python's `str.lower()` (character-wise, structurally recursive so the
kernel can evaluate it). -/
def strLower (s : String) : String :=
  String.mk (s.toList.map Char.toLower)

/-- Python's `str.upper()`. -/
def strUpper (s : String) : String :=
  String.mk (s.toList.map Char.toUpper)

/-- Python's `str.startswith`. -/
def strStartsWith (s pre : String) : Bool :=
  charsPre pre.toList s.toList

/-- Python's `str.strip()` (whitespace at both ends). -/
def strTrim (s : String) : String :=
  String.mk
    (((s.toList.dropWhile Char.isWhitespace).reverse.dropWhile
      Char.isWhitespace).reverse)

/-- Split a character list at every occurrence of `c`. -/
def splitChars (c : Char) : List Char → List (List Char)
  | [] => [[]]
  | ch :: rest =>
    if ch == c then [] :: splitChars c rest
    else
      match splitChars c rest with
      | [] => [[ch]]
      | a :: as => (ch :: a) :: as

/-- Python's `str.split(sep)` for a one-character separator. -/
def strSplit (s : String) (c : Char) : List String :=
  (splitChars c s.toList).map String.mk

/-- `CheckStatus` from `fedchecker/ui/colors.py`: status for check results. -/
inductive CheckStatus where
  | pass
  | fail
  | warn
  | skip
  | error
deriving DecidableEq, Repr

/-- `CheckResult` from `fedchecker/ui/colors.py`: result of a single check.
Field defaults mirror the dataclass defaults. -/
structure CheckResult where
  name : String
  status : CheckStatus
  message : String
  details : String := ""
  fix_available : Bool := false
  fix_command : String := ""
deriving DecidableEq, Repr

/-- `CheckCategory` from `fedchecker/ui/colors.py`: a category of checks. -/
structure CheckCategory where
  name : String
  icon : String
  results : List CheckResult
deriving DecidableEq, Repr

/-- `CheckCategory.passed`: number of results with status PASS. -/
def CheckCategory.passed (c : CheckCategory) : Nat :=
  c.results.countP (fun r => r.status == CheckStatus.pass)

/-- `CheckCategory.failed`: number of results with status FAIL. -/
def CheckCategory.failed (c : CheckCategory) : Nat :=
  c.results.countP (fun r => r.status == CheckStatus.fail)

/-- `CheckCategory.warnings`: number of results with status WARN. -/
def CheckCategory.warnings (c : CheckCategory) : Nat :=
  c.results.countP (fun r => r.status == CheckStatus.warn)

/-- `CheckCategory.total`: number of results. -/
def CheckCategory.total (c : CheckCategory) : Nat :=
  c.results.length

/-- `CheckCategory.score`: health score (0-100); Python float arithmetic is
modelled exactly over `ℚ`. -/
def CheckCategory.score (c : CheckCategory) : ℚ :=
  if c.total = 0 then 100
  else
    let passed_weight : ℚ := (c.passed : ℚ) * 1
    let warn_weight : ℚ := (c.warnings : ℚ) * (1 / 2)
    ((passed_weight + warn_weight) / (c.total : ℚ)) * 100

/-- `CheckCategory.overall_status`: overall status for the category. -/
def CheckCategory.overall_status (c : CheckCategory) : CheckStatus :=
  if c.failed > 0 then CheckStatus.fail
  else if c.warnings > 0 then CheckStatus.warn
  else CheckStatus.pass

/-- A pass-only result, used in concrete example categories. -/
def passResult : CheckResult :=
  { name := "p", status := CheckStatus.pass, message := "ok" }

/-- A skip result, used in concrete example categories. -/
def skipResult : CheckResult :=
  { name := "s", status := CheckStatus.skip, message := "skipped" }

/-- Example category: nine Pass results and one Skip. -/
def ninePassOneSkip : CheckCategory :=
  { name := "ex", icon := "", results := List.replicate 9 passResult ++ [skipResult] }

/-- Appending one more result to a category (used to state that Skip and
Error results enter `total` without contributing to the numerator). -/
def CheckCategory.appendResult (c : CheckCategory) (r : CheckResult) : CheckCategory :=
  { c with results := c.results ++ [r] }

lemma status_beq_iff (s t : CheckStatus) : (s == t) = true ↔ s = t := by
  cases s <;> cases t <;> simp_all

lemma countP_pass_add_warn_le (l : List CheckResult) :
    l.countP (fun r => r.status == CheckStatus.pass) +
      l.countP (fun r => r.status == CheckStatus.warn) ≤ l.length := by
  induction l with
  | nil => simp
  | cons a l ih =>
    simp only [List.countP_cons, List.length_cons]
    rcases h : a.status <;> simp [h] <;> omega

lemma appendResult_counts (c : CheckCategory) (r : CheckResult) :
    (c.appendResult r).total = c.total + 1 ∧
    (c.appendResult r).passed =
      c.passed + (if r.status == CheckStatus.pass then 1 else 0) ∧
    (c.appendResult r).warnings =
      c.warnings + (if r.status == CheckStatus.warn then 1 else 0) ∧
    (c.appendResult r).failed =
      c.failed + (if r.status == CheckStatus.fail then 1 else 0) := by
  simp [CheckCategory.appendResult, CheckCategory.total, CheckCategory.passed,
    CheckCategory.warnings, CheckCategory.failed, List.countP_append, List.countP_cons]

end FedChecks

namespace FedChecks

/-- C1: for every Category the score is `((count(Pass) + 0.5*count(Warn)) /
total) * 100`, `100` when `total = 0`; a Skip or Error result raises `total`
by one and leaves the numerator counts unchanged; nine Pass plus one Skip
score 90. -/
theorem score_matches_spec_formula :
    (∀ c : CheckCategory,
        c.score =
          if c.total = 0 then (100 : ℚ)
          else (((c.passed : ℚ) + (1 / 2) * (c.warnings : ℚ)) / (c.total : ℚ)) * 100) ∧
    (∀ (c : CheckCategory) (r : CheckResult),
        r.status = CheckStatus.skip ∨ r.status = CheckStatus.error →
          (c.appendResult r).total = c.total + 1 ∧
          (c.appendResult r).passed = c.passed ∧
          (c.appendResult r).warnings = c.warnings) ∧
    ninePassOneSkip.total = 10 ∧ ninePassOneSkip.score = 90 := by
  refine ⟨fun c => ?_, fun c r h => ?_, by decide, ?_⟩
  · unfold CheckCategory.score
    split <;> ring
  · obtain ⟨h1, h2, h3, _⟩ := appendResult_counts c r
    rcases h with h | h <;> simp [h] at h2 h3 ⊢ <;> exact ⟨h1, h2, h3⟩
  · simp [ninePassOneSkip, CheckCategory.score, CheckCategory.total,
      CheckCategory.passed, CheckCategory.warnings, passResult, skipResult,
      List.replicate, List.countP_cons]
    norm_num

/-- Witness for `score_matches_spec_formula` at a concrete category and a
concrete Skip result. -/
theorem score_matches_spec_formula_witness :
    (ninePassOneSkip.appendResult skipResult).total = 11 ∧
    (ninePassOneSkip.appendResult skipResult).passed = 9 ∧
    (ninePassOneSkip.appendResult skipResult).warnings = 0 := by
  have h := score_matches_spec_formula.2.1 ninePassOneSkip skipResult (Or.inl rfl)
  refine ⟨h.1.trans (by decide), h.2.1.trans (by decide), h.2.2.trans (by decide)⟩

/-- C2: for every Category the score lies in `[0, 100]`, and it is exactly
`100` iff every result has status Pass (vacuously for an empty category). -/
theorem score_bounds_and_perfect_iff_all_pass (c : CheckCategory) :
    0 ≤ c.score ∧ c.score ≤ 100 ∧
    (c.score = 100 ↔ ∀ r ∈ c.results, r.status = CheckStatus.pass) := by
  have hple : c.passed ≤ c.total := List.countP_le_length _
  have hwle : c.passed + c.warnings ≤ c.total := countP_pass_add_warn_le c.results
  by_cases h0 : c.total = 0
  · have hnil : c.results = [] := List.length_eq_zero.mp h0
    refine ⟨by simp [CheckCategory.score, h0], by simp [CheckCategory.score, h0], ?_⟩
    simp [CheckCategory.score, h0, hnil]
  · have htpos : 0 < c.total := Nat.pos_of_ne_zero h0
    have ht : (0 : ℚ) < (c.total : ℚ) := by exact_mod_cast htpos
    have hp : (0 : ℚ) ≤ (c.passed : ℚ) := by positivity
    have hw : (0 : ℚ) ≤ (c.warnings : ℚ) := by positivity
    have hpleq : (c.passed : ℚ) ≤ (c.total : ℚ) := by exact_mod_cast hple
    have hsum : (c.passed : ℚ) + (c.warnings : ℚ) ≤ (c.total : ℚ) := by exact_mod_cast hwle
    have hscore : c.score =
        (((c.passed : ℚ) * 1 + (c.warnings : ℚ) * (1 / 2)) / (c.total : ℚ)) * 100 := by
      simp [CheckCategory.score, h0]
    have hdiv : ((c.passed : ℚ) * 1 + (c.warnings : ℚ) * (1 / 2)) / (c.total : ℚ) ≤ 1 := by
      rw [div_le_one ht]; linarith
    refine ⟨by rw [hscore]; positivity, by nlinarith [hdiv], ?_⟩
    rw [hscore]
    constructor
    · intro hEq
      have h2 : (c.passed : ℚ) * 1 + (c.warnings : ℚ) * (1 / 2) = (c.total : ℚ) := by
        field_simp at hEq
        linarith
      have hwz : (c.warnings : ℚ) = 0 := by linarith
      have hpt : (c.passed : ℚ) = (c.total : ℚ) := by linarith
      have hpn : c.passed = c.total := by exact_mod_cast hpt
      intro r hr
      have hcount : c.results.countP (fun r => r.status == CheckStatus.pass) =
          c.results.length := hpn
      have := List.countP_eq_length.mp hcount r hr
      exact (status_beq_iff _ _).mp this
    · intro hall
      have hpn : c.results.countP (fun r => r.status == CheckStatus.pass) =
          c.results.length :=
        List.countP_eq_length.mpr
          (fun r hr => (status_beq_iff _ _).mpr (hall r hr))
      have hwn : c.results.countP (fun r => r.status == CheckStatus.warn) = 0 := by
        rw [List.countP_eq_zero]
        intro r hr
        simp [status_beq_iff, hall r hr]
      have hpq : (c.passed : ℚ) = (c.total : ℚ) := by
        have : c.passed = c.total := hpn
        exact_mod_cast this
      have hwq : (c.warnings : ℚ) = 0 := by
        have : c.warnings = 0 := hwn
        exact_mod_cast this
      rw [hpq, hwq]
      field_simp

/-- Witness for `score_bounds_and_perfect_iff_all_pass` at the concrete
nine-Pass-one-Skip category: its score is in range and is not 100. -/
theorem score_bounds_witness :
    0 ≤ ninePassOneSkip.score ∧ ninePassOneSkip.score ≤ 100 ∧
      ninePassOneSkip.score ≠ 100 := by
  obtain ⟨h0, h1, h2⟩ := score_bounds_and_perfect_iff_all_pass ninePassOneSkip
  refine ⟨h0, h1, fun hEq => ?_⟩
  have := h2.mp hEq skipResult (by decide)
  exact absurd this (by decide)

lemma failed_pos_iff (c : CheckCategory) :
    0 < c.failed ↔ ∃ r ∈ c.results, r.status = CheckStatus.fail := by
  unfold CheckCategory.failed
  rw [List.countP_pos_iff]
  simp only [status_beq_iff]

lemma warnings_pos_iff (c : CheckCategory) :
    0 < c.warnings ↔ ∃ r ∈ c.results, r.status = CheckStatus.warn := by
  unfold CheckCategory.warnings
  rw [List.countP_pos_iff]
  simp only [status_beq_iff]

/-- An all-Skip example category. -/
def allSkipCategory : CheckCategory :=
  { name := "ex2", icon := "", results := List.replicate 3 skipResult }

/-- C3: overall_status is Fail iff some result is Fail; with no Fail present
it is Warn iff some result is Warn; with neither it is Pass; Skip and Error
results never drive it, so an all-Skip/Error category is Pass overall. -/
theorem overall_status_worst_of (c : CheckCategory) :
    (c.overall_status = CheckStatus.fail ↔
        ∃ r ∈ c.results, r.status = CheckStatus.fail) ∧
    ((∀ r ∈ c.results, r.status ≠ CheckStatus.fail) →
        (c.overall_status = CheckStatus.warn ↔
          ∃ r ∈ c.results, r.status = CheckStatus.warn)) ∧
    ((∀ r ∈ c.results,
        r.status ≠ CheckStatus.fail ∧ r.status ≠ CheckStatus.warn) →
        c.overall_status = CheckStatus.pass) ∧
    ((∀ r ∈ c.results,
        r.status = CheckStatus.skip ∨ r.status = CheckStatus.error) →
        c.overall_status = CheckStatus.pass) := by
  have hf := failed_pos_iff c
  have hw := warnings_pos_iff c
  unfold CheckCategory.overall_status
  refine ⟨?_, ?_, ?_, ?_⟩
  · by_cases hpos : c.failed > 0
    · rw [if_pos hpos]
      simpa using hf.mp hpos
    · rw [if_neg hpos]
      have hno : ¬ ∃ r ∈ c.results, r.status = CheckStatus.fail :=
        fun hex => hpos (hf.mpr hex)
      by_cases hwpos : c.warnings > 0 <;> simp [hwpos, hno]
  · intro hnof
    have hfz : ¬ c.failed > 0 := fun hpos => by
      obtain ⟨r, hr, hst⟩ := hf.mp hpos
      exact hnof r hr hst
    rw [if_neg hfz]
    by_cases hwpos : c.warnings > 0
    · rw [if_pos hwpos]
      simpa using hw.mp hwpos
    · rw [if_neg hwpos]
      have hno : ¬ ∃ r ∈ c.results, r.status = CheckStatus.warn :=
        fun hex => hwpos (hw.mpr hex)
      simp [hno]
  · intro hno
    have hfz : ¬ c.failed > 0 := fun hpos => by
      obtain ⟨r, hr, hst⟩ := hf.mp hpos
      exact (hno r hr).1 hst
    have hwz : ¬ c.warnings > 0 := fun hpos => by
      obtain ⟨r, hr, hst⟩ := hw.mp hpos
      exact (hno r hr).2 hst
    rw [if_neg hfz, if_neg hwz]
  · intro hse
    have hfz : ¬ c.failed > 0 := fun hpos => by
      obtain ⟨r, hr, hst⟩ := hf.mp hpos
      rcases hse r hr with h | h <;> simp [h] at hst
    have hwz : ¬ c.warnings > 0 := fun hpos => by
      obtain ⟨r, hr, hst⟩ := hw.mp hpos
      rcases hse r hr with h | h <;> simp [h] at hst
    rw [if_neg hfz, if_neg hwz]

/-- Witness for `overall_status_worst_of`: the all-Skip example category has
overall status Pass. -/
theorem overall_status_worst_of_witness :
    allSkipCategory.overall_status = CheckStatus.pass :=
  (overall_status_worst_of allSkipCategory).2.2.2 (by decide)

end FedChecks

namespace FedChecks

/-!
## Health checks (`fedchecker/checks/health.py`)

Each probe is a function of an input structure holding the values the
Python code reads from the system (psutil readings, subprocess outputs).
Free-text parsing performed with `re`/`split` is carried out on the
embedded strings where practical; float formatting (`:.1f`) is rendered
with `toString`.
-/

/-- Outcome of one `subprocess.run` call as observed by a probe. -/
inductive RunOutcome where
  | notFound
  | timedOut
  | completed (returncode : Int) (stdout : String) (stderr : String)
deriving DecidableEq, Repr

/-- One `psutil.disk_partitions()` entry plus its usage reading;
`percent = none` models a `PermissionError` from `disk_usage` (skipped via
`continue`). -/
structure PartitionInfo where
  mountpoint : String
  fstype : String
  percent : Option ℚ
deriving Repr

/-- Input read by `check_disk_space`. -/
structure DiskSpaceInput where
  partitions : List PartitionInfo
  root_percent : ℚ
deriving Repr

/-- The `f"{mountpoint}: {percent}% used"` line. -/
def diskLine (m : String) (pct : ℚ) : String :=
  m ++ ": " ++ toString pct ++ "% used"

/-- Partitions considered by the loop: truthy fstype, not under `/snap`. -/
def consideredParts (i : DiskSpaceInput) : List PartitionInfo :=
  i.partitions.filter
    (fun p => p.fstype ≠ "" && !(strStartsWith p.mountpoint "/snap"))

/-- Lines collected into `critical` (usage ≥ 95%). -/
def diskCritical (i : DiskSpaceInput) : List String :=
  (consideredParts i).filterMap (fun p =>
    p.percent.bind (fun q => if 95 ≤ q then some (diskLine p.mountpoint q) else none))

/-- Lines collected into `warnings` (85% ≤ usage < 95%). -/
def diskWarnings (i : DiskSpaceInput) : List String :=
  (consideredParts i).filterMap (fun p =>
    p.percent.bind (fun q =>
      if 95 ≤ q then none
      else if 85 ≤ q then some (diskLine p.mountpoint q) else none))

/-- `HealthChecker.check_disk_space`. -/
def check_disk_space (i : DiskSpaceInput) : CheckResult :=
  let critical := diskCritical i
  let warns := diskWarnings i
  if critical ≠ [] then
    { name := "Disk Space", status := CheckStatus.fail
      message := "Critical: " ++ toString critical.length ++ " partition(s) nearly full"
      details := String.intercalate "\n" (critical ++ warns)
      fix_available := true
      fix_command := "dnf autoremove && dnf clean all" }
  else if warns ≠ [] then
    { name := "Disk Space", status := CheckStatus.warn
      message := "Warning: " ++ toString warns.length ++ " partition(s) above 85%"
      details := String.intercalate "\n" warns
      fix_available := true
      fix_command := "dnf autoremove && dnf clean all" }
  else
    { name := "Disk Space", status := CheckStatus.pass
      message := "Root partition: " ++ toString i.root_percent ++ "% used" }

/-- Input read by `check_memory` (`psutil.virtual_memory()`). -/
structure MemoryInput where
  percent : ℚ
  available_gb : ℚ
deriving Repr

/-- `HealthChecker.check_memory`. -/
def check_memory (i : MemoryInput) : CheckResult :=
  if 95 ≤ i.percent then
    { name := "Memory Usage", status := CheckStatus.fail
      message := "Critical: " ++ toString i.percent ++ "% RAM used"
      details := "Only " ++ toString i.available_gb ++ " GB available"
      fix_available := false }
  else if 85 ≤ i.percent then
    { name := "Memory Usage", status := CheckStatus.warn
      message := "Warning: " ++ toString i.percent ++ "% RAM used"
      details := toString i.available_gb ++ " GB available" }
  else
    { name := "Memory Usage", status := CheckStatus.pass
      message := toString i.percent ++ "% used (" ++ toString i.available_gb ++ " GB free)" }

/-- Input of `check_cpu_temperature`: `none` models an exception inside the
`try` block; otherwise the `psutil.sensors_temperatures()` dict as a list of
(sensor name, current readings). -/
def CpuTempInput := Option (List (String × List ℚ))

/-- The max-temperature loop (initial value 0). -/
def maxTemp (temps : List (String × List ℚ)) : ℚ :=
  temps.foldl (fun acc e =>
    e.2.foldl (fun a cur => if cur > a then cur else a) acc) 0

/-- `HealthChecker.check_cpu_temperature`. -/
def check_cpu_temperature (i : CpuTempInput) : CheckResult :=
  match i with
  | none =>
    { name := "CPU Temperature", status := CheckStatus.skip
      message := "Unable to read temperature" }
  | some temps =>
    if temps.isEmpty then
      { name := "CPU Temperature", status := CheckStatus.skip
        message := "Temperature sensors not available" }
    else
      let max_temp := maxTemp temps
      if 90 ≤ max_temp then
        { name := "CPU Temperature", status := CheckStatus.fail
          message := "Critical: " ++ toString max_temp ++ "°C"
          details := "CPU is overheating!"
          fix_available := false }
      else if 75 ≤ max_temp then
        { name := "CPU Temperature", status := CheckStatus.warn
          message := "Warning: " ++ toString max_temp ++ "°C"
          details := "CPU temperature is high" }
      else
        { name := "CPU Temperature", status := CheckStatus.pass
          message := toString max_temp ++ "°C" }

/-- Input read by `check_swap` (`psutil.swap_memory()`). -/
structure SwapInput where
  total : ℕ
  percent : ℚ
deriving Repr

/-- `HealthChecker.check_swap`. -/
def check_swap (i : SwapInput) : CheckResult :=
  if i.total = 0 then
    { name := "Swap Space", status := CheckStatus.warn
      message := "No swap configured"
      details := "Consider adding swap for stability"
      fix_available := true
      fix_command := "fallocate -l 4G /swapfile && chmod 600 /swapfile && mkswap /swapfile && swapon /swapfile" }
  else
    let swap_gb : ℚ := (i.total : ℚ) / (1024 ^ 3)
    if 80 ≤ i.percent then
      { name := "Swap Space", status := CheckStatus.warn
        message := "Swap " ++ toString i.percent ++ "% used"
        details := toString swap_gb ++ " GB total swap" }
    else
      { name := "Swap Space", status := CheckStatus.pass
        message := toString swap_gb ++ " GB configured, " ++ toString i.percent ++ "% used" }

/-- `line.split()[0]`, with whitespace-only lines rendered as `""`. -/
def firstWord (l : String) : String :=
  ((strSplit l ' ').filter (· ≠ "")).headD ""

/-- Input of `check_failed_units`: either the command timed out or its
captured stdout. -/
inductive FailedUnitsInput where
  | timedOut
  | ran (stdout : String)
deriving DecidableEq, Repr

/-- `HealthChecker.check_failed_units`. -/
def check_failed_units (i : FailedUnitsInput) : CheckResult :=
  match i with
  | .timedOut =>
    { name := "Failed Systemd Units", status := CheckStatus.skip
      message := "Check timed out" }
  | .ran stdout =>
    let failed_units :=
      ((strSplit (strTrim stdout) '\n').filter (· ≠ "")).map firstWord
    if failed_units ≠ [] then
      { name := "Failed Systemd Units", status := CheckStatus.fail
        message := toString failed_units.length ++ " failed unit(s)"
        details := String.intercalate "\n" (failed_units.take 5)
        fix_available := true
        fix_command := "systemctl reset-failed" }
    else
      { name := "Failed Systemd Units", status := CheckStatus.pass
        message := "No failed units" }

/-- Input read by `check_system_load` (`os.getloadavg`, `os.cpu_count`). -/
structure SystemLoadInput where
  load1 : ℚ
  load5 : ℚ
  load15 : ℚ
  cpu_count : Option ℕ
deriving Repr

/-- `HealthChecker.check_system_load`. -/
def check_system_load (i : SystemLoadInput) : CheckResult :=
  let cpus : ℕ :=
    match i.cpu_count with
    | none => 1
    | some n => if n = 0 then 1 else n
  let load_per_cpu : ℚ := i.load1 / (cpus : ℚ)
  if 2 ≤ load_per_cpu then
    { name := "System Load", status := CheckStatus.fail
      message := "High load: " ++ toString i.load1
      details := "Load avg: " ++ toString i.load1 ++ ", " ++ toString i.load5 ++
        ", " ++ toString i.load15 ++ " (" ++ toString cpus ++ " CPUs)" }
  else if 1 ≤ load_per_cpu then
    { name := "System Load", status := CheckStatus.warn
      message := "Elevated load: " ++ toString i.load1
      details := "Load avg: " ++ toString i.load1 ++ ", " ++ toString i.load5 ++
        ", " ++ toString i.load15 }
  else
    { name := "System Load", status := CheckStatus.pass
      message := "Load: " ++ toString i.load1 ++ " (" ++ toString cpus ++ " CPUs)" }

/-- One entry of `psutil.process_iter`; `accessible = false` models
`NoSuchProcess`/`AccessDenied` (skipped via `continue`). -/
structure ProcInfo where
  pid : ℕ
  pname : String
  is_zombie : Bool
  accessible : Bool
deriving Repr

/-- `HealthChecker.check_zombie_processes`. -/
def check_zombie_processes (procs : List ProcInfo) : CheckResult :=
  let zombies :=
    (procs.filter (fun p => p.accessible && p.is_zombie)).map
      (fun p => "PID " ++ toString p.pid ++ ": " ++ p.pname)
  if zombies ≠ [] then
    { name := "Zombie Processes", status := CheckStatus.warn
      message := toString zombies.length ++ " zombie process(es)"
      details := String.intercalate "\n" (zombies.take 5) }
  else
    { name := "Zombie Processes", status := CheckStatus.pass
      message := "No zombie processes" }

/-- `HealthChecker.check_dnf_status`. -/
def check_dnf_status (o : RunOutcome) : CheckResult :=
  match o with
  | .completed rc _ se =>
    if rc ≠ 0 then
      { name := "Package Manager", status := CheckStatus.fail
        message := "DNF reports issues"
        details := if se ≠ "" then se.take 200 else "Package database may be corrupted"
        fix_available := true
        fix_command := "dnf check && dnf distro-sync" }
    else
      { name := "Package Manager", status := CheckStatus.pass
        message := "DNF is healthy" }
  | .notFound =>
    { name := "Package Manager", status := CheckStatus.error
      message := "DNF not found" }
  | .timedOut =>
    { name := "Package Manager", status := CheckStatus.skip
      message := "Check timed out" }

/-- `HealthChecker.check_journal_errors`; `none` models any exception in
the broad `try` block. -/
def check_journal_errors (i : Option String) : CheckResult :=
  match i with
  | none =>
    { name := "Journal Errors", status := CheckStatus.skip
      message := "Unable to read journal" }
  | some stdout =>
    let error_count := ((strSplit (strTrim stdout) '\n').filter (· ≠ "")).length
    if error_count > 100 then
      { name := "Journal Errors", status := CheckStatus.warn
        message := toString error_count ++ " errors since boot"
        details := "Many errors in journal. Check 'journalctl -p err -b'" }
    else if error_count > 0 then
      { name := "Journal Errors", status := CheckStatus.pass
        message := toString error_count ++ " error(s) since boot" }
    else
      { name := "Journal Errors", status := CheckStatus.pass
        message := "No errors since boot" }

/-- `HealthChecker.check_orphaned_packages`; `none` models any exception in
the broad `try` block. -/
def check_orphaned_packages (i : Option String) : CheckResult :=
  match i with
  | none =>
    { name := "Orphaned Packages", status := CheckStatus.skip
      message := "Unable to check" }
  | some stdout =>
    let packages := (strSplit (strTrim stdout) '\n').filter (· ≠ "")
    if packages.length > 10 then
      { name := "Orphaned Packages", status := CheckStatus.warn
        message := toString packages.length ++ " orphaned package(s)"
        details := "Run 'dnf autoremove' to clean up"
        fix_available := true
        fix_command := "dnf autoremove" }
    else
      { name := "Orphaned Packages", status := CheckStatus.pass
        message := if packages ≠ [] then toString packages.length ++ " orphaned package(s)"
          else "No orphaned packages" }

/-- The Result invariant of the spec: `fix_available` is true exactly when
the fix descriptor (`fix_command`) is a non-empty string. -/
def fixOk (r : CheckResult) : Bool :=
  r.fix_available == (r.fix_command != "")

lemma fixOk_check_disk_space (i : DiskSpaceInput) :
    fixOk (check_disk_space i) = true := by
  unfold check_disk_space
  try dsimp only
  repeat' split
  all_goals rfl

lemma fixOk_check_memory (i : MemoryInput) :
    fixOk (check_memory i) = true := by
  unfold check_memory
  try dsimp only
  repeat' split
  all_goals rfl

lemma fixOk_check_cpu_temperature (i : CpuTempInput) :
    fixOk (check_cpu_temperature i) = true := by
  unfold check_cpu_temperature
  try dsimp only
  repeat' split
  all_goals rfl

lemma fixOk_check_swap (i : SwapInput) :
    fixOk (check_swap i) = true := by
  unfold check_swap
  try dsimp only
  repeat' split
  all_goals rfl

lemma fixOk_check_failed_units (i : FailedUnitsInput) :
    fixOk (check_failed_units i) = true := by
  unfold check_failed_units
  try dsimp only
  repeat' split
  all_goals rfl

lemma fixOk_check_system_load (i : SystemLoadInput) :
    fixOk (check_system_load i) = true := by
  unfold check_system_load
  try dsimp only
  repeat' split
  all_goals rfl

lemma fixOk_check_zombie_processes (procs : List ProcInfo) :
    fixOk (check_zombie_processes procs) = true := by
  unfold check_zombie_processes
  try dsimp only
  repeat' split
  all_goals rfl

lemma fixOk_check_dnf_status (o : RunOutcome) :
    fixOk (check_dnf_status o) = true := by
  unfold check_dnf_status
  try dsimp only
  repeat' split
  all_goals rfl

lemma fixOk_check_journal_errors (i : Option String) :
    fixOk (check_journal_errors i) = true := by
  unfold check_journal_errors
  try dsimp only
  repeat' split
  all_goals rfl

lemma fixOk_check_orphaned_packages (i : Option String) :
    fixOk (check_orphaned_packages i) = true := by
  unfold check_orphaned_packages
  try dsimp only
  repeat' split
  all_goals rfl

end FedChecks

namespace FedChecks

/-!
## Driver checks (`fedchecker/checks/drivers.py`)

Regex extractions (`re.match`/`re.findall`/`re.search`) are abstracted as
input fields holding the extraction results; substring membership tests and
line scans are carried out on the embedded strings.
-/

/-- The `lspci -nnk` line scan of `check_gpu_driver` (the `capturing`
loop collecting VGA/3D/Display lines plus their indented continuations). -/
def gpuScan : List String → Bool → List String
  | [], _ => []
  | l :: ls, capturing =>
    if strContains l "VGA" || strContains l "3D controller" ||
        strContains l "Display controller" then
      l :: gpuScan ls true
    else if capturing && strStartsWith l "\t" then
      l :: gpuScan ls true
    else
      gpuScan ls false

/-- Input of `check_gpu_driver`: `lspci` output (`none` = command failed)
and the result of the Kernel-driver-in-use regex search. -/
structure GpuInput where
  lspci : Option String
  kernel_driver_match : Option String
deriving Repr

/-- `DriverChecker.check_gpu_driver`. -/
def check_gpu_driver (i : GpuInput) : CheckResult :=
  match i.lspci with
  | none =>
    { name := "GPU Driver", status := CheckStatus.skip
      message := "Unable to detect GPU" }
  | some output =>
    let vga_lines := gpuScan (strSplit output '\n') false
    if vga_lines = [] then
      { name := "GPU Driver", status := CheckStatus.warn
        message := "No GPU detected" }
    else
      let gpu_text := String.intercalate "\n" vga_lines
      if strContains (strUpper gpu_text) "NVIDIA" &&
          !(strContains (strLower gpu_text) "nvidia" &&
            strContains gpu_text "Kernel driver in use: nvidia") then
        if strContains (strLower gpu_text) "nouveau" then
          { name := "GPU Driver", status := CheckStatus.warn
            message := "NVIDIA using nouveau driver"
            details := "Consider installing nvidia-driver for better performance"
            fix_available := true
            fix_command := "dnf install akmod-nvidia xorg-x11-drv-nvidia-cuda" }
        else
          { name := "GPU Driver", status := CheckStatus.fail
            message := "NVIDIA GPU without proper driver"
            fix_available := true
            fix_command := "dnf install akmod-nvidia" }
      else
        let vendor :=
          if strContains (strUpper gpu_text) "NVIDIA" then "NVIDIA"
          else if strContains (strUpper gpu_text) "AMD" || strContains (strUpper gpu_text) "ATI" ||
              strContains gpu_text "Radeon" then "AMD"
          else if strContains gpu_text "Intel" then "Intel"
          else "Unknown"
        let driver0 :=
          if vendor = "NVIDIA" then "nvidia (proprietary)"
          else if vendor = "AMD" then
            if strContains (strLower gpu_text) "amdgpu" then "amdgpu"
            else if strContains (strLower gpu_text) "radeon" then "radeon"
            else "Unknown"
          else if vendor = "Intel" then
            if strContains (strLower gpu_text) "i915" then "i915" else "Unknown"
          else "Unknown"
        let driver := i.kernel_driver_match.getD driver0
        { name := "GPU Driver", status := CheckStatus.pass
          message := vendor ++ ": " ++ driver
          details := vga_lines.headD "" }

/-- Input of `check_wifi_driver`: interface names parsed from `ip link`,
the `lspci` text, the resolved driver name, and `rfkill list wifi` output. -/
structure WifiInput where
  wireless_interfaces : List String
  lspci : String
  driver : Option String
  rfkill : String
deriving Repr

/-- `DriverChecker.check_wifi_driver`. -/
def check_wifi_driver (i : WifiInput) : CheckResult :=
  if i.wireless_interfaces = [] then
    if strContains i.lspci "Wireless" || strContains i.lspci "Wi-Fi" ||
        strContains i.lspci "WLAN" then
      { name := "WiFi Driver", status := CheckStatus.fail
        message := "WiFi hardware found but no driver loaded"
        fix_available := true
        fix_command := "dnf install linux-firmware iwlwifi-firmware" }
    else
      { name := "WiFi Driver", status := CheckStatus.skip
        message := "No WiFi hardware detected" }
  else
    let interface := i.wireless_interfaces.headD ""
    let driver := i.driver.getD "unknown"
    if strContains i.rfkill "Soft blocked: yes" ||
        strContains i.rfkill "Hard blocked: yes" then
      { name := "WiFi Driver", status := CheckStatus.warn
        message := driver ++ " driver loaded, WiFi blocked"
        details := "Interface: " ++ interface
        fix_available := true
        fix_command := "rfkill unblock wifi" }
    else
      { name := "WiFi Driver", status := CheckStatus.pass
        message := driver ++ " (" ++ interface ++ ")" }

/-- Input of `check_audio_driver`: `/proc/asound/cards` content (`none` =
file absent), the PipeWire/PulseAudio service probes, and the card-count
regex result. -/
structure AudioInput where
  cards_file : Option String
  pipewire : Bool × String
  pulseaudio : Bool × String
  card_count : ℕ
deriving Repr

/-- `DriverChecker.check_audio_driver`. -/
def check_audio_driver (i : AudioInput) : CheckResult :=
  match i.cards_file with
  | none =>
    { name := "Audio Driver", status := CheckStatus.fail
      message := "No sound subsystem detected"
      fix_available := true
      fix_command := "dnf install alsa-plugins-pulseaudio pipewire-alsa" }
  | some cards =>
    if strContains (strLower cards) "no soundcards" || strTrim cards = "" then
      { name := "Audio Driver", status := CheckStatus.fail
        message := "No sound cards found"
        fix_available := true
        fix_command := "dnf install alsa-firmware sof-firmware" }
    else
      let audio_server :=
        if i.pipewire.1 && strContains i.pipewire.2 "active" then "PipeWire"
        else if i.pulseaudio.1 && strContains i.pulseaudio.2 "active" then "PulseAudio"
        else "Unknown"
      { name := "Audio Driver", status := CheckStatus.pass
        message := toString i.card_count ++ " card(s), " ++ audio_server }

/-- Input of `check_bluetooth`. -/
structure BluetoothInput where
  lsusb : String
  lspci : String
  hci_devices : List String
  service : Bool × String
  rfkill : String
deriving Repr

/-- `DriverChecker.check_bluetooth`. -/
def check_bluetooth (i : BluetoothInput) : CheckResult :=
  let has_bt_hardware := strContains i.lsusb "Bluetooth" || strContains i.lspci "Bluetooth"
  if !has_bt_hardware && i.hci_devices = [] then
    { name := "Bluetooth", status := CheckStatus.skip
      message := "No Bluetooth hardware detected" }
  else if !i.service.1 || strContains i.service.2 "inactive" then
    { name := "Bluetooth", status := CheckStatus.warn
      message := "Bluetooth service not running"
      fix_available := true
      fix_command := "systemctl enable --now bluetooth" }
  else if strContains i.rfkill "Soft blocked: yes" ||
      strContains i.rfkill "Hard blocked: yes" then
    { name := "Bluetooth", status := CheckStatus.warn
      message := "Bluetooth is blocked"
      fix_available := true
      fix_command := "rfkill unblock bluetooth" }
  else
    { name := "Bluetooth", status := CheckStatus.pass
      message := "Bluetooth active" }

/-- Input of `check_usb`. -/
structure UsbInput where
  lsusb_success : Bool
  lsusb_output : String
  lspci_v : String
deriving Repr

/-- `DriverChecker.check_usb`. -/
def check_usb (i : UsbInput) : CheckResult :=
  if !i.lsusb_success then
    { name := "USB Controllers", status := CheckStatus.skip
      message := "Unable to query USB devices" }
  else
    let device_count :=
      ((strSplit i.lsusb_output '\n').filter (fun l => strTrim l ≠ "")).length
    let has_usb3 := strContains i.lspci_v "xHCI" || strContains i.lspci_v "USB 3"
    { name := "USB Controllers", status := CheckStatus.pass
      message := toString device_count ++ " device(s)" ++
        (if has_usb3 then ", USB 3.0" else "") }

/-- Input of `check_ethernet`. -/
structure EthernetInput where
  eth_interfaces : List String
  driver : Option String
  carrier : Bool × String
deriving Repr

/-- `DriverChecker.check_ethernet`. -/
def check_ethernet (i : EthernetInput) : CheckResult :=
  if i.eth_interfaces = [] then
    { name := "Network (Ethernet)", status := CheckStatus.skip
      message := "No ethernet interface detected" }
  else
    let interface := i.eth_interfaces.headD ""
    let driver := i.driver.getD "unknown"
    let is_connected := i.carrier.1 && strTrim i.carrier.2 = "1"
    let status_msg := if is_connected then "connected" else "no link"
    { name := "Network (Ethernet)", status := CheckStatus.pass
      message := driver ++ " (" ++ interface ++ "): " ++ status_msg }

/-- Input of `check_webcam`: `/dev/video*` entries, the `v4l2-ctl` probe,
and the camera-count regex result. -/
structure WebcamInput where
  video_devices : List String
  v4l2 : Bool × String
  cameras : ℕ
deriving Repr

/-- `DriverChecker.check_webcam`. -/
def check_webcam (i : WebcamInput) : CheckResult :=
  if i.video_devices = [] then
    { name := "Webcam", status := CheckStatus.skip
      message := "No video devices found" }
  else if i.v4l2.1 && strTrim i.v4l2.2 ≠ "" then
    { name := "Webcam", status := CheckStatus.pass
      message := toString i.cameras ++ " video device(s) found" }
  else
    { name := "Webcam", status := CheckStatus.pass
      message := toString i.video_devices.length ++ " video device(s)" }

/-- Input of `check_firmware`. -/
structure FirmwareInput where
  which_fwupdmgr : Bool
  upd : Bool × String
deriving Repr

/-- `DriverChecker.check_firmware`. -/
def check_firmware (i : FirmwareInput) : CheckResult :=
  if !i.which_fwupdmgr then
    { name := "Firmware Updates", status := CheckStatus.warn
      message := "fwupd not installed"
      fix_available := true
      fix_command := "dnf install fwupd" }
  else if strContains i.upd.2 "No upgrades" || strContains i.upd.2 "No updates" then
    { name := "Firmware Updates", status := CheckStatus.pass
      message := "Firmware up to date" }
  else if i.upd.1 then
    { name := "Firmware Updates", status := CheckStatus.warn
      message := "Firmware updates available"
      fix_available := true
      fix_command := "fwupdmgr update" }
  else
    { name := "Firmware Updates", status := CheckStatus.pass
      message := "Unable to check updates" }

/-- Input of `check_kernel_modules`: the firmware/module regex findall
results on `dmesg` output. -/
structure KernelModulesInput where
  dmesg_success : Bool
  missing_firmware : List String
  failed_modules : List String
deriving Repr

/-- `DriverChecker.check_kernel_modules`. -/
def check_kernel_modules (i : KernelModulesInput) : CheckResult :=
  if !i.dmesg_success then
    { name := "Kernel Modules", status := CheckStatus.skip
      message := "Unable to read dmesg" }
  else
    let issues := i.missing_firmware.dedup.length + i.failed_modules.dedup.length
    if issues > 5 then
      { name := "Kernel Modules", status := CheckStatus.warn
        message := toString issues ++ " firmware/module issue(s)"
        details := "Check dmesg for details"
        fix_available := true
        fix_command := "dnf install linux-firmware" }
    else if issues > 0 then
      { name := "Kernel Modules", status := CheckStatus.pass
        message := toString issues ++ " minor issue(s)" }
    else
      { name := "Kernel Modules", status := CheckStatus.pass
        message := "No module issues detected" }

/-- Input of `check_hw_acceleration`. -/
structure HwAccelInput where
  vainfo : Bool × String
  vdpau : Bool × String
deriving Repr

/-- `DriverChecker.check_hw_acceleration`. -/
def check_hw_acceleration (i : HwAccelInput) : CheckResult :=
  let has_vaapi := i.vainfo.1 && strContains i.vainfo.2 "VAProfile"
  let has_vdpau := i.vdpau.1 && strContains i.vdpau.2 "VDPAU"
  if has_vaapi && has_vdpau then
    { name := "Hardware Acceleration", status := CheckStatus.pass
      message := "VA-API and VDPAU available" }
  else if has_vaapi then
    { name := "Hardware Acceleration", status := CheckStatus.pass
      message := "VA-API available" }
  else if has_vdpau then
    { name := "Hardware Acceleration", status := CheckStatus.pass
      message := "VDPAU available" }
  else
    { name := "Hardware Acceleration", status := CheckStatus.warn
      message := "No hardware acceleration detected"
      fix_available := true
      fix_command := "dnf install libva-utils vdpauinfo mesa-va-drivers" }

lemma fixOk_check_gpu_driver (i : GpuInput) : fixOk (check_gpu_driver i) = true := by
  unfold check_gpu_driver
  try dsimp only
  repeat' split
  all_goals rfl

lemma fixOk_check_wifi_driver (i : WifiInput) : fixOk (check_wifi_driver i) = true := by
  unfold check_wifi_driver
  try dsimp only
  repeat' split
  all_goals rfl

lemma fixOk_check_audio_driver (i : AudioInput) : fixOk (check_audio_driver i) = true := by
  unfold check_audio_driver
  try dsimp only
  repeat' split
  all_goals rfl

lemma fixOk_check_bluetooth (i : BluetoothInput) : fixOk (check_bluetooth i) = true := by
  unfold check_bluetooth
  try dsimp only
  repeat' split
  all_goals rfl

lemma fixOk_check_usb (i : UsbInput) : fixOk (check_usb i) = true := by
  unfold check_usb
  try dsimp only
  repeat' split
  all_goals rfl

lemma fixOk_check_ethernet (i : EthernetInput) : fixOk (check_ethernet i) = true := by
  unfold check_ethernet
  try dsimp only
  repeat' split
  all_goals rfl

lemma fixOk_check_webcam (i : WebcamInput) : fixOk (check_webcam i) = true := by
  unfold check_webcam
  try dsimp only
  repeat' split
  all_goals rfl

lemma fixOk_check_firmware (i : FirmwareInput) : fixOk (check_firmware i) = true := by
  unfold check_firmware
  try dsimp only
  repeat' split
  all_goals rfl

lemma fixOk_check_kernel_modules (i : KernelModulesInput) :
    fixOk (check_kernel_modules i) = true := by
  unfold check_kernel_modules
  try dsimp only
  repeat' split
  all_goals rfl

lemma fixOk_check_hw_acceleration (i : HwAccelInput) :
    fixOk (check_hw_acceleration i) = true := by
  unfold check_hw_acceleration
  try dsimp only
  repeat' split
  all_goals rfl

end FedChecks

namespace FedChecks

/-!
## Security checks (`fedchecker/checks/security.py`)

File stats, regex searches, and substring-occurrence counts are abstracted
as input fields holding their results; branch structure and all constructed
results follow the source.
-/

/-- Python's whitespace `str.split()` (approximated by single-space
separators with empties dropped). -/
def pySplit (s : String) : List String :=
  (strSplit s ' ').filter (· ≠ "")

/-- Input of `check_firewall`: the three invoked commands' outcomes. -/
structure FirewallInput where
  is_active : Bool × String
  zone : Bool × String
  services : Bool × String
deriving Repr

/-- `SecurityChecker.check_firewall`. -/
def check_firewall (i : FirewallInput) : CheckResult :=
  if !i.is_active.1 || strContains i.is_active.2 "inactive" then
    { name := "Firewall (firewalld)", status := CheckStatus.fail
      message := "Firewall is not running"
      details := "Your system is not protected by a firewall"
      fix_available := true
      fix_command := "systemctl enable --now firewalld" }
  else
    let zone := if i.zone.1 then strTrim i.zone.2 else "unknown"
    let service_count := if i.services.1 then (pySplit i.services.2).length else 0
    { name := "Firewall (firewalld)", status := CheckStatus.pass
      message := "Active (zone: " ++ zone ++ ")"
      details := toString service_count ++ " allowed services" }

/-- `SecurityChecker.check_selinux` (input: the `getenforce` outcome). -/
def check_selinux (i : Bool × String) : CheckResult :=
  if !i.1 then
    { name := "SELinux Status", status := CheckStatus.warn
      message := "Unable to check SELinux" }
  else
    let mode := strLower (strTrim i.2)
    if mode = "enforcing" then
      { name := "SELinux Status", status := CheckStatus.pass
        message := "SELinux is enforcing" }
    else if mode = "permissive" then
      { name := "SELinux Status", status := CheckStatus.warn
        message := "SELinux is permissive"
        details := "Consider setting to enforcing mode"
        fix_available := true
        fix_command := "setenforce 1 && sed -i 's/SELINUX=permissive/SELINUX=enforcing/' /etc/selinux/config" }
    else
      { name := "SELinux Status", status := CheckStatus.fail
        message := "SELinux is disabled"
        details := "Highly recommended to enable SELinux"
        fix_available := true
        fix_command := "sed -i 's/SELINUX=disabled/SELINUX=enforcing/' /etc/selinux/config && reboot" }

/-- Input of `check_ssh_config`: existence of `sshd_config`, the two
issue-detecting regex results, and the sshd service probe. -/
structure SshConfigInput where
  sshd_config_exists : Bool
  permit_root_login_yes : Bool
  permit_empty_passwords_yes : Bool
  sshd_active : Bool
deriving Repr

/-- `SecurityChecker.check_ssh_config`. -/
def check_ssh_config (i : SshConfigInput) : CheckResult :=
  if !i.sshd_config_exists then
    { name := "SSH Configuration", status := CheckStatus.skip
      message := "SSH server not installed" }
  else
    let issues :=
      (if i.permit_root_login_yes then ["Root login enabled"] else []) ++
      (if i.permit_empty_passwords_yes then ["Empty passwords allowed"] else [])
    if issues ≠ [] then
      { name := "SSH Configuration", status := CheckStatus.warn
        message := toString issues.length ++ " security issue(s)"
        details := String.intercalate "\n" issues
        fix_available := true
        fix_command := "sed -i 's/PermitRootLogin yes/PermitRootLogin no/' /etc/ssh/sshd_config && systemctl restart sshd" }
    else if i.sshd_active then
      { name := "SSH Configuration", status := CheckStatus.pass
        message := "SSH configured securely" }
    else
      { name := "SSH Configuration", status := CheckStatus.pass
        message := "SSH not running (secure)" }

/-- Input of `check_open_ports`: `ss` success and the listening ports
parsed from its output. -/
structure OpenPortsInput where
  ss_success : Bool
  listening : List String
deriving Repr

/-- `SecurityChecker.check_open_ports`. -/
def check_open_ports (i : OpenPortsInput) : CheckResult :=
  if !i.ss_success then
    { name := "Open Ports", status := CheckStatus.skip
      message := "Unable to check ports" }
  else
    let external_ports :=
      i.listening.filter (fun p => !(p == "22" || p == "631" || p == "5353"))
    if external_ports.length > 5 then
      { name := "Open Ports", status := CheckStatus.warn
        message := toString i.listening.length ++ " ports listening"
        details := "External: " ++ String.intercalate ", " (external_ports.take 5) ++ "..." }
    else
      { name := "Open Ports", status := CheckStatus.pass
        message := toString i.listening.length ++ " ports listening" }

/-- Input of `check_failed_logins`: the two command attempts and the
substring-count of failures in the used output. -/
structure FailedLoginsInput where
  journalctl_success : Bool
  lastb_success : Bool
  failed_count : ℕ
deriving Repr

/-- `SecurityChecker.check_failed_logins`. -/
def check_failed_logins (i : FailedLoginsInput) : CheckResult :=
  if !i.journalctl_success && !i.lastb_success then
    { name := "Failed Login Attempts", status := CheckStatus.skip
      message := "Unable to check login attempts" }
  else if i.failed_count > 50 then
    { name := "Failed Login Attempts", status := CheckStatus.warn
      message := toString i.failed_count ++ "+ failed attempts (24h)"
      details := "Consider installing fail2ban"
      fix_available := true
      fix_command := "dnf install fail2ban && systemctl enable --now fail2ban" }
  else if i.failed_count > 0 then
    { name := "Failed Login Attempts", status := CheckStatus.pass
      message := toString i.failed_count ++ " failed attempt(s) (24h)" }
  else
    { name := "Failed Login Attempts", status := CheckStatus.pass
      message := "No failed attempts (24h)" }

/-- Input of `check_root_account`: how far the shadow-file scan got. -/
inductive RootAccountInput where
  | unreadable
  | permError
  | noRootLine
  | rootLine (password_hash : String)
deriving DecidableEq, Repr

/-- `SecurityChecker.check_root_account`. -/
def check_root_account (i : RootAccountInput) : CheckResult :=
  match i with
  | .unreadable =>
    { name := "Root Account", status := CheckStatus.skip
      message := "Cannot read shadow file" }
  | .permError =>
    { name := "Root Account", status := CheckStatus.skip
      message := "Cannot check root account" }
  | .rootLine h =>
    if h == "" || h == "*" || h == "!!" || h == "!" then
      { name := "Root Account", status := CheckStatus.pass
        message := "Root login disabled" }
    else
      { name := "Root Account", status := CheckStatus.warn
        message := "Root has password set"
        details := "Consider using sudo instead of root login" }
  | .noRootLine =>
    { name := "Root Account", status := CheckStatus.pass
      message := "Root account secure" }

/-- Input of `check_sudo`: the `groups` output and the NOPASSWD scan of the
sudoers files. -/
structure SudoInput where
  groups_output : String
  has_nopasswd : Bool
deriving Repr

/-- `SecurityChecker.check_sudo`. -/
def check_sudo (i : SudoInput) : CheckResult :=
  if !strContains i.groups_output "wheel" then
    { name := "Sudo Configuration", status := CheckStatus.warn
      message := "Current user not in wheel group"
      details := "May not have sudo access" }
  else if i.has_nopasswd then
    { name := "Sudo Configuration", status := CheckStatus.warn
      message := "NOPASSWD entries found"
      details := "Some commands don't require password" }
  else
    { name := "Sudo Configuration", status := CheckStatus.pass
      message := "Sudo configured properly" }

/-- Input of `check_auto_updates`: the two `systemctl is-enabled` probes. -/
structure AutoUpdatesInput where
  dnf_automatic : Bool × String
  packagekit : Bool × String
deriving Repr

/-- `SecurityChecker.check_auto_updates`. -/
def check_auto_updates (i : AutoUpdatesInput) : CheckResult :=
  if i.dnf_automatic.1 && strContains i.dnf_automatic.2 "enabled" then
    { name := "Automatic Updates", status := CheckStatus.pass
      message := "dnf-automatic enabled" }
  else if i.packagekit.1 && strContains i.packagekit.2 "enabled" then
    { name := "Automatic Updates", status := CheckStatus.pass
      message := "PackageKit updates enabled" }
  else
    { name := "Automatic Updates", status := CheckStatus.warn
      message := "Auto-updates not configured"
      details := "Consider enabling automatic security updates"
      fix_available := true
      fix_command := "dnf install dnf-automatic && systemctl enable --now dnf-automatic.timer" }

/-- Input of `check_password_policy`: existence of `pwquality.conf` and
the `minlen` regex extraction. -/
structure PasswordPolicyInput where
  pwquality_exists : Bool
  minlen_match : Option ℕ
deriving Repr

/-- `SecurityChecker.check_password_policy`. -/
def check_password_policy (i : PasswordPolicyInput) : CheckResult :=
  if !i.pwquality_exists then
    { name := "Password Policy", status := CheckStatus.warn
      message := "pwquality not configured"
      fix_available := true
      fix_command := "dnf install libpwquality" }
  else
    let minlen := i.minlen_match.getD 8
    if minlen < 8 then
      { name := "Password Policy", status := CheckStatus.warn
        message := "Minimum password length: " ++ toString minlen
        details := "Recommended: at least 12 characters" }
    else
      { name := "Password Policy", status := CheckStatus.pass
        message := "Password policy OK (min: " ++ toString minlen ++ ")" }

/-- `SecurityChecker.check_sensitive_files` (input: the permission issues
collected from the file-mode loop). -/
def check_sensitive_files (issues : List String) : CheckResult :=
  if issues ≠ [] then
    { name := "File Permissions", status := CheckStatus.warn
      message := toString issues.length ++ " permission issue(s)"
      details := String.intercalate "\n" issues }
  else
    { name := "File Permissions", status := CheckStatus.pass
      message := "Sensitive files secured" }

/-- `SecurityChecker.check_kernel_security` (input: the issues collected
from the sysctl value loop). -/
def check_kernel_security (issues : List String) : CheckResult :=
  if issues ≠ [] then
    { name := "Kernel Security", status := CheckStatus.warn
      message := toString issues.length ++ " setting(s) suboptimal"
      details := String.intercalate "\n" issues }
  else
    { name := "Kernel Security", status := CheckStatus.pass
      message := "Kernel security OK" }

/-- Input of `check_antivirus`. -/
structure AntivirusInput where
  which_clamscan : Bool
  freshclam : Bool × String
deriving Repr

/-- `SecurityChecker.check_antivirus`. -/
def check_antivirus (i : AntivirusInput) : CheckResult :=
  if !i.which_clamscan then
    { name := "Antivirus (ClamAV)", status := CheckStatus.skip
      message := "ClamAV not installed"
      details := "Optional: install for malware scanning"
      fix_available := true
      fix_command := "dnf install clamav clamav-update" }
  else if i.freshclam.1 && strContains i.freshclam.2 "active" then
    { name := "Antivirus (ClamAV)", status := CheckStatus.pass
      message := "ClamAV installed and updating" }
  else
    { name := "Antivirus (ClamAV)", status := CheckStatus.warn
      message := "ClamAV installed, updates disabled"
      fix_available := true
      fix_command := "systemctl enable --now clamav-freshclam" }

lemma fixOk_check_firewall (i : FirewallInput) : fixOk (check_firewall i) = true := by
  unfold check_firewall
  try dsimp only
  repeat' split
  all_goals rfl

lemma fixOk_check_selinux (i : Bool × String) : fixOk (check_selinux i) = true := by
  unfold check_selinux
  try dsimp only
  repeat' split
  all_goals rfl

lemma fixOk_check_ssh_config (i : SshConfigInput) : fixOk (check_ssh_config i) = true := by
  unfold check_ssh_config
  try dsimp only
  repeat' split
  all_goals rfl

lemma fixOk_check_open_ports (i : OpenPortsInput) : fixOk (check_open_ports i) = true := by
  unfold check_open_ports
  try dsimp only
  repeat' split
  all_goals rfl

lemma fixOk_check_failed_logins (i : FailedLoginsInput) :
    fixOk (check_failed_logins i) = true := by
  unfold check_failed_logins
  try dsimp only
  repeat' split
  all_goals rfl

lemma fixOk_check_root_account (i : RootAccountInput) :
    fixOk (check_root_account i) = true := by
  unfold check_root_account
  try dsimp only
  repeat' split
  all_goals rfl

lemma fixOk_check_sudo (i : SudoInput) : fixOk (check_sudo i) = true := by
  unfold check_sudo
  try dsimp only
  repeat' split
  all_goals rfl

lemma fixOk_check_auto_updates (i : AutoUpdatesInput) :
    fixOk (check_auto_updates i) = true := by
  unfold check_auto_updates
  try dsimp only
  repeat' split
  all_goals rfl

lemma fixOk_check_password_policy (i : PasswordPolicyInput) :
    fixOk (check_password_policy i) = true := by
  unfold check_password_policy
  try dsimp only
  repeat' split
  all_goals rfl

lemma fixOk_check_sensitive_files (issues : List String) :
    fixOk (check_sensitive_files issues) = true := by
  unfold check_sensitive_files
  try dsimp only
  repeat' split
  all_goals rfl

lemma fixOk_check_kernel_security (issues : List String) :
    fixOk (check_kernel_security issues) = true := by
  unfold check_kernel_security
  try dsimp only
  repeat' split
  all_goals rfl

lemma fixOk_check_antivirus (i : AntivirusInput) : fixOk (check_antivirus i) = true := by
  unfold check_antivirus
  try dsimp only
  repeat' split
  all_goals rfl

end FedChecks

namespace FedChecks

/-!
## Desktop checks (`fedchecker/checks/desktop.py`)
-/

/-- The `de_map` dict of `check_desktop_environment`, in insertion order. -/
def de_map : List (String × String) :=
  [("gnome", "GNOME"), ("kde", "KDE Plasma"), ("plasma", "KDE Plasma"),
   ("xfce", "XFCE"), ("cinnamon", "Cinnamon"), ("mate", "MATE"),
   ("lxde", "LXDE"), ("lxqt", "LXQt"), ("budgie", "Budgie"),
   ("pantheon", "Pantheon"), ("sway", "Sway"), ("i3", "i3"),
   ("hyprland", "Hyprland")]

/-- Input of `check_desktop_environment`: the lowered
`XDG_CURRENT_DESKTOP`, the two fallback environment flags, and the version
string resolved by the version command probes (`""` when absent). -/
structure DesktopEnvInput where
  desktop_session : String
  gnome_session_env : Bool
  kde_env : Bool
  version : String
deriving Repr

/-- `DesktopChecker.check_desktop_environment`. -/
def check_desktop_environment (i : DesktopEnvInput) : CheckResult :=
  let de0 :=
    match de_map.find? (fun kv => strContains i.desktop_session kv.1) with
    | some kv => kv.2
    | none => "Unknown"
  let de_name :=
    if de0 = "Unknown" then
      if i.gnome_session_env then "GNOME"
      else if i.kde_env then "KDE Plasma"
      else "Unknown"
    else de0
  if de_name = "Unknown" then
    { name := "Desktop Environment", status := CheckStatus.warn
      message := "Unable to detect DE"
      details := "Running in TTY or unknown DE" }
  else
    { name := "Desktop Environment", status := CheckStatus.pass
      message := de_name ++ (if i.version ≠ "" then " " ++ i.version else "") }

/-- Input of `check_display_server`. -/
structure DisplayServerInput where
  session_type : String
  wayland_display : String
  display : String
deriving Repr

/-- `DesktopChecker.check_display_server`. -/
def check_display_server (i : DisplayServerInput) : CheckResult :=
  if i.session_type = "wayland" then
    { name := "Display Server", status := CheckStatus.pass
      message := "Wayland (" ++ i.wayland_display ++ ")" }
  else if i.session_type = "x11" then
    { name := "Display Server", status := CheckStatus.pass
      message := "X11 (" ++ i.display ++ ")" }
  else if i.session_type = "tty" then
    { name := "Display Server", status := CheckStatus.skip
      message := "TTY session (no GUI)" }
  else
    { name := "Display Server", status := CheckStatus.warn
      message := "Unknown display server" }

/-- Input of `check_compositor`: the session type, the
`XDG_CURRENT_DESKTOP` value (default "Unknown"), the `xdpyinfo` probe, and
the five `pgrep` probes. -/
structure CompositorInput where
  session_type : String
  xdg_current_desktop : String
  xdpyinfo : Bool × String
  picom : Bool
  compton : Bool
  compiz : Bool
  kwin : Bool
  mutter : Bool
deriving Repr

/-- The compositor `pgrep` table of `check_compositor`, in order. -/
def compositorProbes (i : CompositorInput) : List (String × Bool) :=
  [("picom", i.picom), ("compton", i.compton), ("compiz", i.compiz),
   ("kwin", i.kwin), ("mutter", i.mutter)]

/-- `DesktopChecker.check_compositor`. -/
def check_compositor (i : CompositorInput) : CheckResult :=
  if i.session_type = "wayland" then
    { name := "Compositor", status := CheckStatus.pass
      message := "Wayland compositor (" ++ i.xdg_current_desktop ++ ")" }
  else if !i.xdpyinfo.1 then
    { name := "Compositor", status := CheckStatus.skip
      message := "Cannot check compositor" }
  else if strContains i.xdpyinfo.2 "Composite" then
    match (compositorProbes i).find? (fun e => e.2) with
    | some e =>
      { name := "Compositor", status := CheckStatus.pass
        message := e.1 ++ " compositor active" }
    | none =>
      { name := "Compositor", status := CheckStatus.pass
        message := "Composite extension enabled" }
  else
    { name := "Compositor", status := CheckStatus.warn
      message := "No compositor detected"
      details := "Desktop effects may not work properly" }

/-- Input of `check_display_manager`: the `systemctl is-active` probe for
each display manager service, in table order. -/
structure DisplayManagerInput where
  gdm : Bool × String
  sddm : Bool × String
  lightdm : Bool × String
  lxdm : Bool × String
  xdm : Bool × String
deriving Repr

/-- The display-manager table of `check_display_manager`, in order. -/
def displayManagerProbes (i : DisplayManagerInput) :
    List ((Bool × String) × String) :=
  [(i.gdm, "GDM (GNOME)"), (i.sddm, "SDDM (KDE)"), (i.lightdm, "LightDM"),
   (i.lxdm, "LXDM"), (i.xdm, "XDM")]

/-- `DesktopChecker.check_display_manager`. -/
def check_display_manager (i : DisplayManagerInput) : CheckResult :=
  match (displayManagerProbes i).find?
      (fun e => e.1.1 && strContains e.1.2 "active") with
  | some e =>
    { name := "Display Manager", status := CheckStatus.pass
      message := e.2 }
  | none =>
    { name := "Display Manager", status := CheckStatus.warn
      message := "No display manager detected"
      details := "Using TTY login or startx" }

/-- Input of `check_resolution`: the `xrandr --current` probe (the earlier
Wayland probes are overwritten unconditionally in the source) and the two
regex findall results. -/
structure ResolutionInput where
  xrandr_success : Bool
  resolutions : List String
  connected : List String
deriving Repr

/-- `DesktopChecker.check_resolution`. -/
def check_resolution (i : ResolutionInput) : CheckResult :=
  if !i.xrandr_success then
    { name := "Screen Resolution", status := CheckStatus.skip
      message := "Cannot detect resolution" }
  else if i.resolutions ≠ [] then
    { name := "Screen Resolution", status := CheckStatus.pass
      message := String.intercalate ", " i.resolutions }
  else if i.connected ≠ [] then
    { name := "Screen Resolution", status := CheckStatus.pass
      message := toString i.connected.length ++ " display(s) connected" }
  else
    { name := "Screen Resolution", status := CheckStatus.warn
      message := "No displays detected" }

/-- Python's `.strip("'")` on an already-trimmed string. -/
def stripQuotes (s : String) : String :=
  String.mk (((s.toList.dropWhile (fun c => c == '\x27')).reverse.dropWhile
    (fun c => c == '\x27')).reverse)

/-- Input of `check_themes`: the three `gsettings get` probes. -/
structure ThemesInput where
  gtk : Bool × String
  icons : Bool × String
  cursor : Bool × String
deriving Repr

/-- `DesktopChecker.check_themes`. -/
def check_themes (i : ThemesInput) : CheckResult :=
  let themes :=
    (if i.gtk.1 then [("GTK", stripQuotes (strTrim i.gtk.2))] else []) ++
    (if i.icons.1 then [("Icons", stripQuotes (strTrim i.icons.2))] else []) ++
    (if i.cursor.1 then [("Cursor", stripQuotes (strTrim i.cursor.2))] else [])
  if themes ≠ [] then
    let theme_str :=
      String.intercalate ", " ((themes.take 2).map (fun kv => kv.1 ++ ": " ++ kv.2))
    { name := "Theme & Icons", status := CheckStatus.pass
      message := theme_str.take 50 ++ (if theme_str.length > 50 then "..." else "") }
  else
    { name := "Theme & Icons", status := CheckStatus.skip
      message := "Unable to detect themes" }

/-- Input of `check_fonts`. -/
structure FontsInput where
  fc_success : Bool
  fc_output : String
deriving Repr

/-- The common-font probe list of `check_fonts`. -/
def common_fonts : List String :=
  ["DejaVu", "Liberation", "Noto", "Roboto", "Fira"]

/-- `DesktopChecker.check_fonts`. -/
def check_fonts (i : FontsInput) : CheckResult :=
  if !i.fc_success then
    { name := "Fonts", status := CheckStatus.skip
      message := "fontconfig not available" }
  else
    let font_count := (strSplit (strTrim i.fc_output) '\n').length
    let found_fonts :=
      common_fonts.filter (fun f => strContains (strLower i.fc_output) (strLower f))
    if font_count < 50 then
      { name := "Fonts", status := CheckStatus.warn
        message := "Only " ++ toString font_count ++ " fonts installed"
        details := "Consider installing more font packages"
        fix_available := true
        fix_command := "dnf install google-noto-fonts-common liberation-fonts dejavu-fonts-all" }
    else
      { name := "Fonts", status := CheckStatus.pass
        message := toString font_count ++ " fonts (" ++
          String.intercalate ", " (found_fonts.take 3) ++ ")" }

/-- Input of `check_gnome_extensions`: the lowered session name, the
`gnome-extensions list --enabled` probe, and the `--disabled` output (its
success flag is not consulted by the source). -/
structure GnomeExtInput where
  desktop_session : String
  list_enabled : Bool × String
  list_disabled : String
deriving Repr

/-- `DesktopChecker.check_gnome_extensions`. -/
def check_gnome_extensions (i : GnomeExtInput) : CheckResult :=
  if !strContains i.desktop_session "gnome" then
    { name := "GNOME Extensions", status := CheckStatus.skip
      message := "Not using GNOME" }
  else if !i.list_enabled.1 then
    { name := "GNOME Extensions", status := CheckStatus.skip
      message := "gnome-extensions not available" }
  else
    let extensions := (strSplit (strTrim i.list_enabled.2) '\n').filter (· ≠ "")
    if extensions = [] then
      { name := "GNOME Extensions", status := CheckStatus.pass
        message := "No extensions enabled" }
    else
      let disabled_count := ((strSplit (strTrim i.list_disabled) '\n').filter (· ≠ "")).length
      { name := "GNOME Extensions", status := CheckStatus.pass
        message := toString extensions.length ++ " enabled, " ++
          toString disabled_count ++ " disabled" }

/-- Input of `check_flatpak`. -/
structure FlatpakInput where
  which_flatpak : Bool
  list_app : Bool × String
  remotes : String
deriving Repr

/-- `DesktopChecker.check_flatpak`. -/
def check_flatpak (i : FlatpakInput) : CheckResult :=
  if !i.which_flatpak then
    { name := "Flatpak Apps", status := CheckStatus.warn
      message := "Flatpak not installed"
      fix_available := true
      fix_command := "dnf install flatpak && flatpak remote-add --if-not-exists flathub https://flathub.org/repo/flathub.flatpakrepo" }
  else if i.list_app.1 then
    let app_count := ((strSplit (strTrim i.list_app.2) '\n').filter (· ≠ "")).length
    let has_flathub := strContains (strLower i.remotes) "flathub"
    if !has_flathub then
      { name := "Flatpak Apps", status := CheckStatus.warn
        message := toString app_count ++ " app(s), Flathub not configured"
        fix_available := true
        fix_command := "flatpak remote-add --if-not-exists flathub https://flathub.org/repo/flathub.flatpakrepo" }
    else
      { name := "Flatpak Apps", status := CheckStatus.pass
        message := toString app_count ++ " app(s) installed" }
  else
    { name := "Flatpak Apps", status := CheckStatus.pass
      message := "Flatpak configured" }

/-- Input of `check_portals`: the `rpm -q` probe for each portal package
and the user portal-service probe. -/
structure PortalsInput where
  core_pkg : Bool
  gtk_pkg : Bool
  gnome_pkg : Bool
  kde_pkg : Bool
  service_active : Bool × String
deriving Repr

/-- `DesktopChecker.check_portals`. -/
def check_portals (i : PortalsInput) : CheckResult :=
  let installed :=
    (if i.core_pkg then ["core"] else []) ++
    (if i.gtk_pkg then ["gtk"] else []) ++
    (if i.gnome_pkg then ["gnome"] else []) ++
    (if i.kde_pkg then ["kde"] else [])
  if installed = [] then
    { name := "Desktop Portals", status := CheckStatus.warn
      message := "XDG portals not installed"
      details := "Flatpak apps may not work correctly"
      fix_available := true
      fix_command := "dnf install xdg-desktop-portal xdg-desktop-portal-gtk" }
  else if i.service_active.1 && strContains i.service_active.2 "active" then
    { name := "Desktop Portals", status := CheckStatus.pass
      message := "Active (" ++ String.intercalate ", " (installed.take 3) ++ ")" }
  else
    { name := "Desktop Portals", status := CheckStatus.warn
      message := "Portal service not running"
      fix_available := true
      fix_command := "systemctl --user enable --now xdg-desktop-portal" }

lemma fixOk_check_desktop_environment (i : DesktopEnvInput) :
    fixOk (check_desktop_environment i) = true := by
  unfold check_desktop_environment
  try dsimp only
  repeat' split
  all_goals rfl

lemma fixOk_check_display_server (i : DisplayServerInput) :
    fixOk (check_display_server i) = true := by
  unfold check_display_server
  try dsimp only
  repeat' split
  all_goals rfl

lemma fixOk_check_compositor (i : CompositorInput) :
    fixOk (check_compositor i) = true := by
  unfold check_compositor
  try dsimp only
  repeat' split
  all_goals rfl

lemma fixOk_check_display_manager (i : DisplayManagerInput) :
    fixOk (check_display_manager i) = true := by
  unfold check_display_manager
  try dsimp only
  repeat' split
  all_goals rfl

lemma fixOk_check_resolution (i : ResolutionInput) :
    fixOk (check_resolution i) = true := by
  unfold check_resolution
  try dsimp only
  repeat' split
  all_goals rfl

lemma fixOk_check_themes (i : ThemesInput) : fixOk (check_themes i) = true := by
  unfold check_themes
  try dsimp only
  repeat' split
  all_goals rfl

lemma fixOk_check_fonts (i : FontsInput) : fixOk (check_fonts i) = true := by
  unfold check_fonts
  try dsimp only
  repeat' split
  all_goals rfl

lemma fixOk_check_gnome_extensions (i : GnomeExtInput) :
    fixOk (check_gnome_extensions i) = true := by
  unfold check_gnome_extensions
  try dsimp only
  repeat' split
  all_goals rfl

lemma fixOk_check_flatpak (i : FlatpakInput) : fixOk (check_flatpak i) = true := by
  unfold check_flatpak
  try dsimp only
  repeat' split
  all_goals rfl

lemma fixOk_check_portals (i : PortalsInput) : fixOk (check_portals i) = true := by
  unfold check_portals
  try dsimp only
  repeat' split
  all_goals rfl

end FedChecks

namespace FedChecks

/-!
## Category aggregators (`run_all_checks` of `HealthChecker` and
`DriverChecker`)

A checker instance holds a `results` list; `run_all_checks` first resets it
to `[]`, then walks its fixed check table, appending each probe's result,
or an Error result when the probe raises (`except Exception as e`).  Probe
bodies are abstracted as `Except String CheckResult` outcomes, `error e`
standing for a raised exception with text `str(e)`.
-/

/-- `StatusIcon.HEALTH` from `fedchecker/ui/colors.py`. -/
def StatusIcon.HEALTH : String := "[bold green]🏥[/]"

/-- `StatusIcon.DRIVER` from `fedchecker/ui/colors.py`. -/
def StatusIcon.DRIVER : String := "[bold yellow]🔧[/]"

/-- The Result synthesized by the `except Exception` arm of the
aggregator loop. -/
def errorResult (name e : String) : CheckResult :=
  { name := name, status := CheckStatus.error, message := "Check failed: " ++ e }

/-- The `for name, check_func in checks` loop: one result per table entry,
probe exceptions converted to Error results. -/
def runChecksLoop (checks : List (String × Except String CheckResult)) :
    List CheckResult :=
  checks.map (fun nc =>
    match nc.2 with
    | .ok r => r
    | .error e => errorResult nc.1 e)

/-- Outcome of each of the ten probes in `HealthChecker`'s check table. -/
structure HealthProbeOutcomes where
  disk_space : Except String CheckResult
  memory : Except String CheckResult
  cpu_temperature : Except String CheckResult
  swap : Except String CheckResult
  failed_units : Except String CheckResult
  system_load : Except String CheckResult
  zombie_processes : Except String CheckResult
  dnf_status : Except String CheckResult
  journal_errors : Except String CheckResult
  orphaned_packages : Except String CheckResult

/-- `HealthChecker.run_all_checks`'s fixed `checks` table. -/
def healthChecks (sys : HealthProbeOutcomes) :
    List (String × Except String CheckResult) :=
  [("Disk Space", sys.disk_space), ("Memory Usage", sys.memory),
   ("CPU Temperature", sys.cpu_temperature), ("Swap Space", sys.swap),
   ("Failed Systemd Units", sys.failed_units), ("System Load", sys.system_load),
   ("Zombie Processes", sys.zombie_processes), ("Package Manager", sys.dnf_status),
   ("Journal Errors", sys.journal_errors),
   ("Orphaned Packages", sys.orphaned_packages)]

/-- `HealthChecker` instance state: its `self.results` list. -/
structure HealthChecker where
  results : List CheckResult := []

/-- `HealthChecker.run_all_checks`: resets `self.results`, runs the table,
returns the updated instance and the produced Category. -/
def HealthChecker.run_all_checks (_ : HealthChecker) (sys : HealthProbeOutcomes) :
    HealthChecker × CheckCategory :=
  let rs := runChecksLoop (healthChecks sys)
  ({ results := rs },
   { name := "Health Check", icon := StatusIcon.HEALTH, results := rs })

/-- Outcome of each of the ten probes in `DriverChecker`'s check table. -/
structure DriverProbeOutcomes where
  gpu_driver : Except String CheckResult
  wifi_driver : Except String CheckResult
  audio_driver : Except String CheckResult
  bluetooth : Except String CheckResult
  usb : Except String CheckResult
  ethernet : Except String CheckResult
  webcam : Except String CheckResult
  firmware : Except String CheckResult
  kernel_modules : Except String CheckResult
  hw_acceleration : Except String CheckResult

/-- `DriverChecker.run_all_checks`'s fixed `checks` table. -/
def driverChecks (sys : DriverProbeOutcomes) :
    List (String × Except String CheckResult) :=
  [("GPU Driver", sys.gpu_driver), ("WiFi Driver", sys.wifi_driver),
   ("Audio Driver", sys.audio_driver), ("Bluetooth", sys.bluetooth),
   ("USB Controllers", sys.usb), ("Network (Ethernet)", sys.ethernet),
   ("Webcam", sys.webcam), ("Firmware Updates", sys.firmware),
   ("Kernel Modules", sys.kernel_modules),
   ("Hardware Acceleration", sys.hw_acceleration)]

/-- `DriverChecker` instance state: its `self.results` list. -/
structure DriverChecker where
  results : List CheckResult := []

/-- `DriverChecker.run_all_checks`. -/
def DriverChecker.run_all_checks (_ : DriverChecker) (sys : DriverProbeOutcomes) :
    DriverChecker × CheckCategory :=
  let rs := runChecksLoop (driverChecks sys)
  ({ results := rs },
   { name := "Driver Check", icon := StatusIcon.DRIVER, results := rs })

lemma runChecksLoop_getElem (checks : List (String × Except String CheckResult))
    (k : ℕ) :
    (runChecksLoop checks)[k]? = (checks[k]?).map (fun nc =>
      match nc.2 with
      | .ok r => r
      | .error e => errorResult nc.1 e) := by
  unfold runChecksLoop
  exact List.getElem?_map _ _ _

lemma errorResult_message_ne (n e : String) : (errorResult n e).message ≠ "" := by
  intro hEq
  have h1 : ("Check failed: " ++ e).length = ("" : String).length :=
    congrArg String.length hEq
  rw [String.length_append] at h1
  have h2 : ("Check failed: " : String).length = 14 := rfl
  have h3 : ("" : String).length = 0 := rfl
  omega

/-- C4: each aggregator returns exactly one result per entry of its fixed
ten-probe table: a raising probe is converted to an Error result with a
non-empty message, a returning probe's result is passed through unchanged,
and the Category is well-formed (ten results) whatever the probes do —
including when every probe raises. -/
theorem aggregator_isolation :
    (∀ (c : HealthChecker) (sys : HealthProbeOutcomes),
        ((c.run_all_checks sys).2).results.length = 10 ∧
        (∀ (k : ℕ) (n e : String),
            (healthChecks sys)[k]? = some (n, Except.error e) →
              ((c.run_all_checks sys).2).results[k]? = some (errorResult n e) ∧
              (errorResult n e).status = CheckStatus.error ∧
              (errorResult n e).message ≠ "") ∧
        (∀ (k : ℕ) (n : String) (r : CheckResult),
            (healthChecks sys)[k]? = some (n, Except.ok r) →
              ((c.run_all_checks sys).2).results[k]? = some r)) ∧
    (∀ (c : DriverChecker) (sys : DriverProbeOutcomes),
        ((c.run_all_checks sys).2).results.length = 10 ∧
        (∀ (k : ℕ) (n e : String),
            (driverChecks sys)[k]? = some (n, Except.error e) →
              ((c.run_all_checks sys).2).results[k]? = some (errorResult n e) ∧
              (errorResult n e).status = CheckStatus.error ∧
              (errorResult n e).message ≠ "") ∧
        (∀ (k : ℕ) (n : String) (r : CheckResult),
            (driverChecks sys)[k]? = some (n, Except.ok r) →
              ((c.run_all_checks sys).2).results[k]? = some r)) := by
  constructor
  · intro c sys
    refine ⟨rfl, fun k n e h => ?_, fun k n r h => ?_⟩
    · have hg := runChecksLoop_getElem (healthChecks sys) k
      rw [h] at hg
      exact ⟨hg, rfl, errorResult_message_ne n e⟩
    · have hg := runChecksLoop_getElem (healthChecks sys) k
      rw [h] at hg
      exact hg
  · intro c sys
    refine ⟨rfl, fun k n e h => ?_, fun k n r h => ?_⟩
    · have hg := runChecksLoop_getElem (driverChecks sys) k
      rw [h] at hg
      exact ⟨hg, rfl, errorResult_message_ne n e⟩
    · have hg := runChecksLoop_getElem (driverChecks sys) k
      rw [h] at hg
      exact hg

/-- A concrete probe-outcome assignment: the Memory probe raises "boom",
every other probe returns `passResult`. -/
def witnessHealthSys : HealthProbeOutcomes :=
  { disk_space := Except.ok passResult
    memory := Except.error "boom"
    cpu_temperature := Except.ok passResult
    swap := Except.ok passResult
    failed_units := Except.ok passResult
    system_load := Except.ok passResult
    zombie_processes := Except.ok passResult
    dnf_status := Except.ok passResult
    journal_errors := Except.ok passResult
    orphaned_packages := Except.ok passResult }

/-- Witness for `aggregator_isolation`: one raising probe among nine
succeeding ones still yields ten results, with the Error result in place. -/
theorem aggregator_isolation_witness :
    ((HealthChecker.mk []).run_all_checks witnessHealthSys).2.results.length = 10 ∧
    ((HealthChecker.mk []).run_all_checks witnessHealthSys).2.results[1]? =
      some (errorResult "Memory Usage" "boom") ∧
    (errorResult "Memory Usage" "boom").status = CheckStatus.error ∧
    (errorResult "Memory Usage" "boom").message ≠ "" ∧
    ((HealthChecker.mk []).run_all_checks witnessHealthSys).2.results[0]? =
      some passResult := by
  have h := aggregator_isolation.1 (HealthChecker.mk []) witnessHealthSys
  have he := h.2.1 1 "Memory Usage" "boom" rfl
  have hok := h.2.2 0 "Disk Space" passResult rfl
  exact ⟨h.1, he.1, he.2.1, he.2.2, hok⟩

/-- C10: `run_all_checks` resets the instance's results list first, so its
output does not depend on any earlier run's results: for any prior state
the run equals the run from a fresh instance, the returned Category has
exactly one result per entry of the fixed ten-entry table, and the stored
state equals the returned results. -/
theorem run_all_checks_resets_results :
    ∀ (prev : List CheckResult) (sys : HealthProbeOutcomes),
      (HealthChecker.mk prev).run_all_checks sys =
        (HealthChecker.mk []).run_all_checks sys ∧
      ((HealthChecker.mk prev).run_all_checks sys).2.results.length =
        (healthChecks sys).length ∧
      ((HealthChecker.mk prev).run_all_checks sys).2.results.length = 10 ∧
      ((HealthChecker.mk prev).run_all_checks sys).1.results =
        ((HealthChecker.mk prev).run_all_checks sys).2.results :=
  fun _ _ => ⟨rfl, rfl, rfl, rfl⟩

lemma fixOk_spec (r : CheckResult) :
    fixOk r = true ↔ (r.fix_available = true ↔ r.fix_command ≠ "") := by
  unfold fixOk
  cases hav : r.fix_available <;> by_cases hc : r.fix_command = "" <;>
    simp [hav, hc, bne]

lemma fixOk_errorResult (n e : String) : fixOk (errorResult n e) = true := rfl

/-- C5: for every Result constructed by any of the 42 probes (health,
driver, security, desktop) and for the Error results synthesized by the
aggregator, `fix_available` is true exactly when `fix_command` is a
non-empty string.  The first conjunct ties the Boolean invariant `fixOk`
to that statement. -/
theorem fix_available_iff_descriptor :
    (∀ r : CheckResult, fixOk r = true ↔
        (r.fix_available = true ↔ r.fix_command ≠ "")) ∧
    (∀ i, fixOk (check_disk_space i) = true) ∧
    (∀ i, fixOk (check_memory i) = true) ∧
    (∀ i, fixOk (check_cpu_temperature i) = true) ∧
    (∀ i, fixOk (check_swap i) = true) ∧
    (∀ i, fixOk (check_failed_units i) = true) ∧
    (∀ i, fixOk (check_system_load i) = true) ∧
    (∀ procs, fixOk (check_zombie_processes procs) = true) ∧
    (∀ o, fixOk (check_dnf_status o) = true) ∧
    (∀ i, fixOk (check_journal_errors i) = true) ∧
    (∀ i, fixOk (check_orphaned_packages i) = true) ∧
    (∀ i, fixOk (check_gpu_driver i) = true) ∧
    (∀ i, fixOk (check_wifi_driver i) = true) ∧
    (∀ i, fixOk (check_audio_driver i) = true) ∧
    (∀ i, fixOk (check_bluetooth i) = true) ∧
    (∀ i, fixOk (check_usb i) = true) ∧
    (∀ i, fixOk (check_ethernet i) = true) ∧
    (∀ i, fixOk (check_webcam i) = true) ∧
    (∀ i, fixOk (check_firmware i) = true) ∧
    (∀ i, fixOk (check_kernel_modules i) = true) ∧
    (∀ i, fixOk (check_hw_acceleration i) = true) ∧
    (∀ i, fixOk (check_firewall i) = true) ∧
    (∀ i, fixOk (check_selinux i) = true) ∧
    (∀ i, fixOk (check_ssh_config i) = true) ∧
    (∀ i, fixOk (check_open_ports i) = true) ∧
    (∀ i, fixOk (check_failed_logins i) = true) ∧
    (∀ i, fixOk (check_root_account i) = true) ∧
    (∀ i, fixOk (check_sudo i) = true) ∧
    (∀ i, fixOk (check_auto_updates i) = true) ∧
    (∀ i, fixOk (check_password_policy i) = true) ∧
    (∀ issues, fixOk (check_sensitive_files issues) = true) ∧
    (∀ issues, fixOk (check_kernel_security issues) = true) ∧
    (∀ i, fixOk (check_antivirus i) = true) ∧
    (∀ i, fixOk (check_desktop_environment i) = true) ∧
    (∀ i, fixOk (check_display_server i) = true) ∧
    (∀ i, fixOk (check_compositor i) = true) ∧
    (∀ i, fixOk (check_display_manager i) = true) ∧
    (∀ i, fixOk (check_resolution i) = true) ∧
    (∀ i, fixOk (check_themes i) = true) ∧
    (∀ i, fixOk (check_fonts i) = true) ∧
    (∀ i, fixOk (check_gnome_extensions i) = true) ∧
    (∀ i, fixOk (check_flatpak i) = true) ∧
    (∀ i, fixOk (check_portals i) = true) ∧
    (∀ n e, fixOk (errorResult n e) = true) :=
  ⟨fixOk_spec, fixOk_check_disk_space, fixOk_check_memory,
   fixOk_check_cpu_temperature, fixOk_check_swap, fixOk_check_failed_units,
   fixOk_check_system_load, fixOk_check_zombie_processes,
   fixOk_check_dnf_status, fixOk_check_journal_errors,
   fixOk_check_orphaned_packages, fixOk_check_gpu_driver,
   fixOk_check_wifi_driver, fixOk_check_audio_driver, fixOk_check_bluetooth,
   fixOk_check_usb, fixOk_check_ethernet, fixOk_check_webcam,
   fixOk_check_firmware, fixOk_check_kernel_modules,
   fixOk_check_hw_acceleration, fixOk_check_firewall, fixOk_check_selinux,
   fixOk_check_ssh_config, fixOk_check_open_ports, fixOk_check_failed_logins,
   fixOk_check_root_account, fixOk_check_sudo, fixOk_check_auto_updates,
   fixOk_check_password_policy, fixOk_check_sensitive_files,
   fixOk_check_kernel_security, fixOk_check_antivirus,
   fixOk_check_desktop_environment, fixOk_check_display_server,
   fixOk_check_compositor, fixOk_check_display_manager, fixOk_check_resolution,
   fixOk_check_themes, fixOk_check_fonts, fixOk_check_gnome_extensions,
   fixOk_check_flatpak, fixOk_check_portals, fixOk_errorResult⟩

end FedChecks

namespace FedChecks

/-!
## Remediation (`fedchecker/fixes/health_fix.py`, `fedchecker/fixes/driver_fix.py`)

Fixers execute external commands through `_run_command`.  The embedding
threads an explicit environment (what each executed command returns) and
returns, next to the `FixResult`, the ordered trace of state-changing
effects: each command handed to the executor and each direct file write.
`Confirm.ask` answers are supplied as a function from prompt index (within
one `apply_fix` invocation) to the user's answer.
-/

/-- A state-changing effect performed by a fixer. -/
inductive Effect where
  | cmd (argv : List String)
  | fileAppend (path line : String)
deriving DecidableEq, Repr

/-- Environment a fixer runs against: what executing a (possibly
sudo-prefixed) argv returns, whether `/swapfile` exists, and whether
`/etc/fstab` is writable without sudo. -/
structure FixEnv where
  run : List String → Bool × String
  swapfile_exists : Bool
  fstab_writable : Bool

/-- `FixResult` from the fix modules. -/
structure FixResult where
  success : Bool
  message : String
  details : String := ""
  requires_reboot : Bool := false
deriving DecidableEq, Repr

/-- `_run_command`: sudo-prefix the argv, execute it, record the effect. -/
def runCommand (env : FixEnv) (cmd : List String) (use_sudo : Bool) :
    (Bool × String) × List Effect :=
  let c := if use_sudo then "sudo" :: cmd else cmd
  (env.run c, [Effect.cmd c])

namespace HealthFixer

/-- The `steps` table of `fix_disk_space`. -/
def disk_space_steps : List (String × List String) :=
  [("Cleaning DNF cache", ["dnf", "clean", "all"]),
   ("Removing orphaned packages", ["dnf", "autoremove", "-y"]),
   ("Cleaning old kernels", ["dnf", "remove", "--oldinstallonly", "-y"]),
   ("Cleaning journal logs", ["journalctl", "--vacuum-time=7d"])]

/-- The `fix_disk_space` loop: runs every step, collecting the cleaned and
failed descriptions. -/
def runStepsAll (env : FixEnv) :
    List (String × List String) → List String × List String × List Effect
  | [] => ([], [], [])
  | (desc, cmd) :: rest =>
    let r := runCommand env cmd true
    let (cleaned, failed, tr) := runStepsAll env rest
    if r.1.1 then (desc :: cleaned, failed, r.2 ++ tr)
    else (cleaned, desc :: failed, r.2 ++ tr)

/-- `HealthFixer.fix_disk_space`. -/
def fix_disk_space (env : FixEnv) : FixResult × List Effect :=
  match runStepsAll env disk_space_steps with
  | (cleaned, failed, tr) =>
    if failed ≠ [] then
      ({ success := false
         message := "Partial cleanup: " ++ toString cleaned.length ++ "/" ++
           toString disk_space_steps.length ++ " steps completed"
         details := "Failed: " ++ String.intercalate ", " failed }, tr)
    else
      ({ success := true
         message := "Disk cleanup completed"
         details := "Completed: " ++ String.intercalate ", " cleaned }, tr)

/-- `HealthFixer.fix_failed_units`. -/
def fix_failed_units (env : FixEnv) : FixResult × List Effect :=
  let r := runCommand env ["systemctl", "reset-failed"] true
  if r.1.1 then
    ({ success := true, message := "Failed units reset" }, r.2)
  else
    ({ success := false, message := "Failed to reset units", details := r.1.2 }, r.2)

/-- The `steps` table of `fix_dnf_issues`. -/
def dnf_fix_steps : List (String × List String) :=
  [("Rebuilding RPM database", ["rpm", "--rebuilddb"]),
   ("Cleaning DNF cache", ["dnf", "clean", "all"]),
   ("Checking for problems", ["dnf", "check"]),
   ("Syncing distribution", ["dnf", "distro-sync", "-y"])]

/-- A stop-at-first-failure step loop (the `fix_dnf_issues` and
`enable_bluetooth` pattern): returns the failing step's description and
output, or `none` when every step succeeded. -/
def runStepsStopFirst (env : FixEnv) :
    List (String × List String) → Option (String × String) × List Effect
  | [] => (none, [])
  | (desc, cmd) :: rest =>
    let r := runCommand env cmd true
    if r.1.1 then
      match runStepsStopFirst env rest with
      | (res, tr) => (res, r.2 ++ tr)
    else (some (desc, r.1.2), r.2)

/-- `HealthFixer.fix_dnf_issues`. -/
def fix_dnf_issues (env : FixEnv) : FixResult × List Effect :=
  match runStepsStopFirst env dnf_fix_steps with
  | (some (desc, output), tr) =>
    ({ success := false, message := "Failed at: " ++ desc
       details := output.take 500 }, tr)
  | (none, tr) =>
    ({ success := true, message := "Package manager issues fixed" }, tr)

/-- `HealthFixer.fix_orphaned_packages` (the `output[-500:]` slice is
rendered with `takeRight`). -/
def fix_orphaned_packages (env : FixEnv) : FixResult × List Effect :=
  let r := runCommand env ["dnf", "autoremove", "-y"] true
  if r.1.1 then
    ({ success := true, message := "Removed orphaned packages"
       details := if r.1.2.length > 500 then r.1.2.takeRight 500 else r.1.2 }, r.2)
  else
    ({ success := false, message := "Failed to remove orphaned packages"
       details := r.1.2 }, r.2)

/-- The `steps` table of `create_swap`. -/
def swap_steps (size_gb : ℕ) (swapfile : String) : List (String × List String) :=
  [("Allocating space", ["fallocate", "-l", toString size_gb ++ "G", swapfile]),
   ("Setting permissions", ["chmod", "600", swapfile]),
   ("Formatting swap", ["mkswap", swapfile]),
   ("Enabling swap", ["swapon", swapfile])]

/-- The `create_swap` loop: stops at the first failing step, removing the
swap file before returning. -/
def runSwapSteps (env : FixEnv) (swapfile : String) :
    List (String × List String) → Option (String × String) × List Effect
  | [] => (none, [])
  | (desc, cmd) :: rest =>
    let r := runCommand env cmd true
    if r.1.1 then
      match runSwapSteps env swapfile rest with
      | (res, tr) => (res, r.2 ++ tr)
    else
      let cl := runCommand env ["rm", "-f", swapfile] true
      (some (desc, r.1.2), r.2 ++ cl.2)

/-- `HealthFixer.create_swap`. -/
def create_swap (env : FixEnv) (size_gb : ℕ := 4) : FixResult × List Effect :=
  let swapfile := "/swapfile"
  if env.swapfile_exists then
    ({ success := false, message := "Swap file already exists"
       details := "Remove /swapfile first if you want to recreate it" }, [])
  else
    match runSwapSteps env swapfile (swap_steps size_gb swapfile) with
    | (some (desc, output), tr) =>
      ({ success := false, message := "Failed at: " ++ desc
         details := output }, tr)
    | (none, tr) =>
      let fstab_effects :=
        if env.fstab_writable then
          [Effect.fileAppend "/etc/fstab" (swapfile ++ " none swap sw 0 0\n")]
        else
          (runCommand env
            ["bash", "-c",
             "echo '" ++ swapfile ++ " none swap sw 0 0' >> /etc/fstab"] true).2
      ({ success := true
         message := "Created " ++ toString size_gb ++ "GB swap file"
         details := "Swap is now active and will persist across reboots" },
       tr ++ fstab_effects)

/-- The name-keyed `fix_map` of `HealthFixer.apply_fix`. -/
def fix_map (env : FixEnv) : String → Option (FixResult × List Effect)
  | "Disk Space" => some (fix_disk_space env)
  | "Failed Systemd Units" => some (fix_failed_units env)
  | "Package Manager" => some (fix_dnf_issues env)
  | "Orphaned Packages" => some (fix_orphaned_packages env)
  | "Swap Space" => some (create_swap env 4)
  | _ => none

/-- The fall-through generic branch of `apply_fix`
(`if check_result.fix_command:`); `k` is the index of its confirmation
prompt within the invocation. -/
def generic_fix (env : FixEnv) (user : ℕ → Bool) (k : ℕ)
    (check_result : CheckResult) : Option FixResult × List Effect :=
  if check_result.fix_command ≠ "" then
    if user k then
      let r := runCommand env ["bash", "-c", check_result.fix_command] true
      (some { success := r.1.1
              message := if r.1.1 then "Fix applied" else "Fix failed"
              details := r.1.2 }, r.2)
    else (none, [])
  else (none, [])

/-- `HealthFixer.apply_fix`: name-keyed handler first (behind a prompt);
when none matches, or when the handler's prompt is declined, the literal
`fix_command` branch (behind its own prompt). -/
def apply_fix (env : FixEnv) (user : ℕ → Bool)
    (check_result : CheckResult) : Option FixResult × List Effect :=
  if !check_result.fix_available then (none, [])
  else
    match fix_map env check_result.name with
    | some fr =>
      if user 0 then (some fr.1, fr.2)
      else generic_fix env user 1 check_result
    | none => generic_fix env user 0 check_result

end HealthFixer

namespace DriverFixer

/-- The `steps` table of `install_nvidia_driver`. -/
def nvidia_steps : List (String × List String) :=
  [("Enabling RPM Fusion",
    ["dnf", "install", "-y",
     "https://download1.rpmfusion.org/free/fedora/rpmfusion-free-release-$(rpm -E %fedora).noarch.rpm",
     "https://download1.rpmfusion.org/nonfree/fedora/rpmfusion-nonfree-release-$(rpm -E %fedora).noarch.rpm"]),
   ("Installing NVIDIA driver", ["dnf", "install", "-y", "akmod-nvidia"]),
   ("Installing CUDA support", ["dnf", "install", "-y", "xorg-x11-drv-nvidia-cuda"])]

/-- The `install_nvidia_driver` loop: shell-wraps commands containing `$`,
ignores a failure of the RPM Fusion step, stops at any other failure. -/
def runNvidiaSteps (env : FixEnv) :
    List (String × List String) → Option (String × String) × List Effect
  | [] => (none, [])
  | (desc, cmd) :: rest =>
    let joined := String.intercalate " " cmd
    let r :=
      if strContains joined "$" then runCommand env ["bash", "-c", joined] true
      else runCommand env cmd true
    if !r.1.1 && !strContains desc "RPM Fusion" then (some (desc, r.1.2), r.2)
    else
      match runNvidiaSteps env rest with
      | (res, tr) => (res, r.2 ++ tr)

/-- `DriverFixer.install_nvidia_driver`. -/
def install_nvidia_driver (env : FixEnv) : FixResult × List Effect :=
  match runNvidiaSteps env nvidia_steps with
  | (some (desc, output), tr) =>
    ({ success := false, message := "Failed at: " ++ desc
       details := output.take 500 }, tr)
  | (none, tr) =>
    ({ success := true, message := "NVIDIA driver installed"
       details := "Reboot required to load the new driver"
       requires_reboot := true }, tr)

/-- `DriverFixer.install_wifi_firmware`. -/
def install_wifi_firmware (env : FixEnv) : FixResult × List Effect :=
  let r := runCommand env
    (["dnf", "install", "-y"] ++
     ["linux-firmware", "iwl*-firmware", "atheros-firmware",
      "b43-openfwwf", "brcmfmac-firmware"]) true
  if r.1.1 then
    ({ success := true, message := "WiFi firmware installed"
       details := "You may need to reboot or reload the WiFi module"
       requires_reboot := true }, r.2)
  else
    ({ success := false, message := "Failed to install firmware"
       details := r.1.2 }, r.2)

/-- `DriverFixer.unblock_wifi`. -/
def unblock_wifi (env : FixEnv) : FixResult × List Effect :=
  let r := runCommand env ["rfkill", "unblock", "wifi"] true
  if r.1.1 then
    ({ success := true, message := "WiFi unblocked" }, r.2)
  else
    ({ success := false, message := "Failed to unblock WiFi"
       details := r.1.2 }, r.2)

/-- `DriverFixer.install_audio_drivers`. -/
def install_audio_drivers (env : FixEnv) : FixResult × List Effect :=
  let r := runCommand env
    (["dnf", "install", "-y"] ++
     ["alsa-firmware", "alsa-plugins-pulseaudio", "pipewire-alsa",
      "sof-firmware"]) true
  if r.1.1 then
    ({ success := true, message := "Audio packages installed"
       requires_reboot := true }, r.2)
  else
    ({ success := false, message := "Failed to install audio packages"
       details := r.1.2 }, r.2)

/-- The `steps` table of `enable_bluetooth`. -/
def bluetooth_steps : List (String × List String) :=
  [("Unblocking Bluetooth", ["rfkill", "unblock", "bluetooth"]),
   ("Enabling service", ["systemctl", "enable", "--now", "bluetooth"])]

/-- `DriverFixer.enable_bluetooth` (same stop-at-first-failure loop shape
as `fix_dnf_issues`). -/
def enable_bluetooth (env : FixEnv) : FixResult × List Effect :=
  match HealthFixer.runStepsStopFirst env bluetooth_steps with
  | (some (desc, output), tr) =>
    ({ success := false, message := "Failed at: " ++ desc
       details := output }, tr)
  | (none, tr) =>
    ({ success := true, message := "Bluetooth enabled" }, tr)

/-- `DriverFixer.update_firmware`: the metadata refresh runs first with its
result discarded, then the update command decides the outcome. -/
def update_firmware (env : FixEnv) : FixResult × List Effect :=
  let refresh := runCommand env ["fwupdmgr", "refresh", "--force"] true
  let r := runCommand env ["fwupdmgr", "update", "-y"] true
  if r.1.1 || strContains r.1.2 "No upgrades" then
    ({ success := true, message := "Firmware updated"
       requires_reboot := strContains (strLower r.1.2) "reboot" },
     refresh.2 ++ r.2)
  else
    ({ success := false, message := "Failed to update firmware"
       details := r.1.2 }, refresh.2 ++ r.2)

/-- `DriverFixer.install_hw_acceleration`. -/
def install_hw_acceleration (env : FixEnv) : FixResult × List Effect :=
  let r := runCommand env
    (["dnf", "install", "-y"] ++
     ["libva-utils", "vdpauinfo", "mesa-va-drivers", "mesa-vdpau-drivers",
      "libva-intel-driver", "intel-media-driver"]) true
  if r.1.1 then
    ({ success := true, message := "Hardware acceleration installed" }, r.2)
  else
    ({ success := false, message := "Failed to install packages"
       details := r.1.2 }, r.2)

/-- The name-keyed `fix_map` of `DriverFixer.apply_fix`. -/
def fix_map (env : FixEnv) : String → Option (FixResult × List Effect)
  | "GPU Driver" => some (install_nvidia_driver env)
  | "WiFi Driver" => some (install_wifi_firmware env)
  | "Audio Driver" => some (install_audio_drivers env)
  | "Bluetooth" => some (enable_bluetooth env)
  | "Firmware Updates" => some (update_firmware env)
  | "Hardware Acceleration" => some (install_hw_acceleration env)
  | _ => none

/-- `DriverFixer.apply_fix`: the "blocked" shortcut invokes the unblock
handlers directly — with no confirmation prompt; otherwise as in
`HealthFixer.apply_fix` (the generic fall-through branch is the same
code in the source and is shared here). -/
def apply_fix (env : FixEnv) (user : ℕ → Bool)
    (check_result : CheckResult) : Option FixResult × List Effect :=
  if !check_result.fix_available then (none, [])
  else if strContains (strLower check_result.message) "blocked" &&
      strContains (strLower check_result.name) "wifi" then
    match unblock_wifi env with
    | (res, tr) => (some res, tr)
  else if strContains (strLower check_result.message) "blocked" &&
      strContains (strLower check_result.name) "bluetooth" then
    match enable_bluetooth env with
    | (res, tr) => (some res, tr)
  else
    match fix_map env check_result.name with
    | some fr =>
      if user 0 then (some fr.1, fr.2)
      else HealthFixer.generic_fix env user 1 check_result
    | none => HealthFixer.generic_fix env user 0 check_result

end DriverFixer

/-- A user who answers no to every confirmation prompt. -/
def allNo : ℕ → Bool := fun _ => false

/-- A user who answers no to the first prompt and yes to the second. -/
def noThenYes : ℕ → Bool := fun k => k == 1

/-- An environment in which every executed command succeeds with empty
output. -/
def envOk : FixEnv :=
  { run := fun _ => (true, ""), swapfile_exists := false, fstab_writable := true }

/-- An environment in which every executed command fails with output
"boom". -/
def envFail : FixEnv :=
  { run := fun _ => (false, "boom"), swapfile_exists := false, fstab_writable := true }

/-- A system state in which the WiFi probe finds an interface whose radio is
soft-blocked. -/
def wifiBlockedInput : WifiInput :=
  { wireless_interfaces := ["wlan0"], lspci := "", driver := none
    rfkill := "Soft blocked: yes" }

/-- The Result the WiFi probe produces on `wifiBlockedInput`. -/
def wifiBlockedResult : CheckResult := check_wifi_driver wifiBlockedInput

/-- C6 counterexample: a fixable Result actually produced by the WiFi probe
(blocked radio) makes the driver dispatcher execute
`sudo rfkill unblock wifi` although the user is never asked anything — the
all-no user sees commands executed. -/
theorem decline_all_counterexample :
    wifiBlockedResult.fix_available = true ∧
    DriverFixer.apply_fix envOk allNo wifiBlockedResult =
      (some { success := true, message := "WiFi unblocked" },
       [Effect.cmd ["sudo", "rfkill", "unblock", "wifi"]]) ∧
    (DriverFixer.apply_fix envOk allNo wifiBlockedResult).2 ≠ [] := by
  refine ⟨rfl, rfl, by decide⟩

/-- C6 amended: declining every confirmation executes nothing for the
health dispatcher on all Results, and for the driver dispatcher on all
Results whose message does not contain "blocked"; the "blocked" shortcut of
the driver dispatcher is exactly the unprompted exception. -/
theorem decline_all_no_effects :
    (∀ (env : FixEnv) (user : ℕ → Bool) (r : CheckResult),
        (∀ k, user k = false) →
        HealthFixer.apply_fix env user r = (none, [])) ∧
    (∀ (env : FixEnv) (user : ℕ → Bool) (r : CheckResult),
        (∀ k, user k = false) →
        strContains (strLower r.message) "blocked" = false →
        DriverFixer.apply_fix env user r = (none, [])) := by
  constructor
  · intro env user r hu
    unfold HealthFixer.apply_fix HealthFixer.generic_fix
    split
    · rfl
    · split <;> simp [hu]
  · intro env user r hu hb
    unfold DriverFixer.apply_fix HealthFixer.generic_fix
    simp only [hb, hu, Bool.false_and, Bool.false_eq_true, if_false, ite_self]
    split
    · rfl
    · cases DriverFixer.fix_map env r.name <;> rfl

/-- A Result actually produced by the disk-space probe on a 96%-full root
partition (stated literally; `disk_probe_reaches_fix` connects it to the
probe). -/
def diskFullResult : CheckResult :=
  { name := "Disk Space", status := CheckStatus.fail
    message := "Critical: 1 partition(s) nearly full"
    details := "/: 96% used"
    fix_available := true
    fix_command := "dnf autoremove && dnf clean all" }

lemma disk_probe_reaches_fix :
    (check_disk_space
        { partitions := [{ mountpoint := "/", fstype := "ext4", percent := some 96 }]
          root_percent := 96 }).fix_command = diskFullResult.fix_command ∧
    (check_disk_space
        { partitions := [{ mountpoint := "/", fstype := "ext4", percent := some 96 }]
          root_percent := 96 }).name = diskFullResult.name ∧
    (check_disk_space
        { partitions := [{ mountpoint := "/", fstype := "ext4", percent := some 96 }]
          root_percent := 96 }).fix_available = diskFullResult.fix_available := by
  refine ⟨by decide, by decide, by decide⟩

/-- Witness for `decline_all_no_effects` at concrete inputs: an all-no user
leaves both dispatchers effect-free on a fixable health Result and on a
fixable driver Result without "blocked" in its message. -/
theorem decline_all_no_effects_witness :
    HealthFixer.apply_fix envOk allNo diskFullResult = (none, []) ∧
    DriverFixer.apply_fix envOk allNo
      (check_firmware { which_fwupdmgr := false, upd := (true, "") }) = (none, []) := by
  constructor
  · exact decline_all_no_effects.1 envOk allNo diskFullResult (fun _ => rfl)
  · exact decline_all_no_effects.2 envOk allNo
      (check_firmware { which_fwupdmgr := false, upd := (true, "") })
      (fun _ => rfl) rfl

/-- C7 counterexample: in an environment where every command fails, the
disk-space remediation's first step fails yet all four step commands are
executed — it does not stop at the first failing step; it reports the
failures only afterwards. -/
theorem stop_at_first_failure_counterexample :
    (envFail.run ["sudo", "dnf", "clean", "all"]).1 = false ∧
    (HealthFixer.fix_disk_space envFail).2 =
      [Effect.cmd ["sudo", "dnf", "clean", "all"],
       Effect.cmd ["sudo", "dnf", "autoremove", "-y"],
       Effect.cmd ["sudo", "dnf", "remove", "--oldinstallonly", "-y"],
       Effect.cmd ["sudo", "journalctl", "--vacuum-time=7d"]] ∧
    (HealthFixer.fix_disk_space envFail).1 =
      { success := false
        message := "Partial cleanup: 0/4 steps completed"
        details := "Failed: Cleaning DNF cache, Removing orphaned packages, Cleaning old kernels, Cleaning journal logs" } :=
  ⟨rfl, rfl, rfl⟩

lemma runStepsStopFirst_stops (env : FixEnv) (pre : List (String × List String))
    (desc : String) (cmd : List String) (suf : List (String × List String))
    (hpre : ∀ p ∈ pre, (env.run ("sudo" :: p.2)).1 = true)
    (hfail : (env.run ("sudo" :: cmd)).1 = false) :
    HealthFixer.runStepsStopFirst env (pre ++ (desc, cmd) :: suf) =
      (some (desc, (env.run ("sudo" :: cmd)).2),
       pre.map (fun p => Effect.cmd ("sudo" :: p.2)) ++
         [Effect.cmd ("sudo" :: cmd)]) := by
  induction pre with
  | nil =>
    simp only [List.nil_append, List.map_nil]
    unfold HealthFixer.runStepsStopFirst
    simp [runCommand, hfail]
  | cons p rest ih =>
    have hp : (env.run ("sudo" :: p.2)).1 = true := hpre p (by simp)
    have hrest : ∀ q ∈ rest, (env.run ("sudo" :: q.2)).1 = true :=
      fun q hq => hpre q (by simp [hq])
    simp only [List.cons_append]
    unfold HealthFixer.runStepsStopFirst
    simp [runCommand, hp, ih hrest]

lemma runSwapSteps_stops (env : FixEnv) (swapfile : String)
    (pre : List (String × List String)) (desc : String) (cmd : List String)
    (suf : List (String × List String))
    (hpre : ∀ p ∈ pre, (env.run ("sudo" :: p.2)).1 = true)
    (hfail : (env.run ("sudo" :: cmd)).1 = false) :
    HealthFixer.runSwapSteps env swapfile (pre ++ (desc, cmd) :: suf) =
      (some (desc, (env.run ("sudo" :: cmd)).2),
       pre.map (fun p => Effect.cmd ("sudo" :: p.2)) ++
         [Effect.cmd ("sudo" :: cmd),
          Effect.cmd ["sudo", "rm", "-f", swapfile]]) := by
  induction pre with
  | nil =>
    simp only [List.nil_append, List.map_nil]
    unfold HealthFixer.runSwapSteps
    simp [runCommand, hfail]
  | cons p rest ih =>
    have hp : (env.run ("sudo" :: p.2)).1 = true := hpre p (by simp)
    have hrest : ∀ q ∈ rest, (env.run ("sudo" :: q.2)).1 = true :=
      fun q hq => hpre q (by simp [hq])
    simp only [List.cons_append]
    unfold HealthFixer.runSwapSteps
    simp [runCommand, hp, ih hrest]

lemma runStepsAll_trace (env : FixEnv) (steps : List (String × List String)) :
    (HealthFixer.runStepsAll env steps).2.2 =
      steps.map (fun p => Effect.cmd ("sudo" :: p.2)) := by
  induction steps with
  | nil => rfl
  | cons p rest ih =>
    unfold HealthFixer.runStepsAll
    simp [runCommand]
    split <;> simp [ih]

lemma runStepsAll_failed (env : FixEnv) (steps : List (String × List String)) :
    (HealthFixer.runStepsAll env steps).2.1 =
      (steps.filter (fun p => !(env.run ("sudo" :: p.2)).1)).map Prod.fst := by
  induction steps with
  | nil => rfl
  | cons p rest ih =>
    unfold HealthFixer.runStepsAll
    rcases hp : (env.run ("sudo" :: p.2)).1 <;>
      simp [runCommand, hp, ih, List.filter_cons]

/-- C7 amended: the package-manager fix and the swap fix stop at the first
failing step and name it in the FixResult message without undoing earlier
steps — except that the swap fix additionally removes the allocated swap
file; the disk-space fix however executes every step regardless of
failures, and fails exactly when some step's command failed. -/
theorem multi_step_remediation_behavior :
    (∀ (env : FixEnv) (pre : List (String × List String)) (desc : String)
        (cmd : List String) (suf : List (String × List String)),
        HealthFixer.dnf_fix_steps = pre ++ (desc, cmd) :: suf →
        (∀ p ∈ pre, (env.run ("sudo" :: p.2)).1 = true) →
        (env.run ("sudo" :: cmd)).1 = false →
        HealthFixer.fix_dnf_issues env =
          ({ success := false, message := "Failed at: " ++ desc
             details := (env.run ("sudo" :: cmd)).2.take 500 },
           pre.map (fun p => Effect.cmd ("sudo" :: p.2)) ++
             [Effect.cmd ("sudo" :: cmd)])) ∧
    (∀ (env : FixEnv) (pre : List (String × List String)) (desc : String)
        (cmd : List String) (suf : List (String × List String)),
        env.swapfile_exists = false →
        HealthFixer.swap_steps 4 "/swapfile" = pre ++ (desc, cmd) :: suf →
        (∀ p ∈ pre, (env.run ("sudo" :: p.2)).1 = true) →
        (env.run ("sudo" :: cmd)).1 = false →
        HealthFixer.create_swap env 4 =
          ({ success := false, message := "Failed at: " ++ desc
             details := (env.run ("sudo" :: cmd)).2 },
           pre.map (fun p => Effect.cmd ("sudo" :: p.2)) ++
             [Effect.cmd ("sudo" :: cmd),
              Effect.cmd ["sudo", "rm", "-f", "/swapfile"]])) ∧
    (∀ env : FixEnv,
        (HealthFixer.fix_disk_space env).2 =
          HealthFixer.disk_space_steps.map (fun p => Effect.cmd ("sudo" :: p.2)) ∧
        ((HealthFixer.fix_disk_space env).1.success = false ↔
          ∃ p ∈ HealthFixer.disk_space_steps, (env.run ("sudo" :: p.2)).1 = false)) := by
  refine ⟨?_, ?_, ?_⟩
  · intro env pre desc cmd suf hsteps hpre hfail
    unfold HealthFixer.fix_dnf_issues
    rw [hsteps, runStepsStopFirst_stops env pre desc cmd suf hpre hfail]
  · intro env pre desc cmd suf hswap hsteps hpre hfail
    unfold HealthFixer.create_swap
    rw [if_neg (by simp [hswap])]
    rw [hsteps, runSwapSteps_stops env "/swapfile" pre desc cmd suf hpre hfail]
  · intro env
    refine ⟨?_, ?_⟩
    · unfold HealthFixer.fix_disk_space
      rcases hall : HealthFixer.runStepsAll env HealthFixer.disk_space_steps with
        ⟨c, f, tr⟩
      have := runStepsAll_trace env HealthFixer.disk_space_steps
      rw [hall] at this
      dsimp at this ⊢
      split <;> simpa using this
    · unfold HealthFixer.fix_disk_space
      rcases hall : HealthFixer.runStepsAll env HealthFixer.disk_space_steps with
        ⟨c, f, tr⟩
      have hfl := runStepsAll_failed env HealthFixer.disk_space_steps
      rw [hall] at hfl
      dsimp at hfl
      constructor
      · intro hs
        by_contra hno
        push_neg at hno
        have hfilter :
            HealthFixer.disk_space_steps.filter
              (fun p => !(env.run ("sudo" :: p.2)).1) = [] := by
          rw [List.filter_eq_nil_iff]
          intro p hp
          simp [hno p hp]
        rw [hfilter] at hfl
        simp only [List.map_nil] at hfl
        rw [hfl] at hs
        simp at hs
      · intro ⟨p, hp, hpf⟩
        have : f ≠ [] := by
          rw [hfl]
          intro hEq
          have := List.filter_eq_nil_iff.mp (List.map_eq_nil_iff.mp hEq) p hp
          simp [hpf] at this
        simp [this]

/-- A concrete environment in which exactly the `dnf clean all` command
fails. -/
def envCleanFails : FixEnv :=
  { run := fun c => if c = ["sudo", "dnf", "clean", "all"] then (false, "x")
      else (true, "")
    swapfile_exists := false, fstab_writable := true }

/-- Witness for `multi_step_remediation_behavior`: with the second dnf-fix
step failing, the fix stops there, reports "Failed at: Cleaning DNF cache",
and executes no later step. -/
theorem multi_step_remediation_behavior_witness :
    HealthFixer.fix_dnf_issues envCleanFails =
      ({ success := false, message := "Failed at: " ++ "Cleaning DNF cache"
         details := "x".take 500 },
       [Effect.cmd ["sudo", "rpm", "--rebuilddb"],
        Effect.cmd ["sudo", "dnf", "clean", "all"]]) := by
  have h := multi_step_remediation_behavior.1 envCleanFails
    [("Rebuilding RPM database", ["rpm", "--rebuilddb"])]
    "Cleaning DNF cache" ["dnf", "clean", "all"]
    [("Checking for problems", ["dnf", "check"]),
     ("Syncing distribution", ["dnf", "distro-sync", "-y"])]
    rfl (by decide) rfl
  simpa using h

/-- C8 counterexample: "Disk Space" has a named handler in the health
dispatcher's fix table, yet when the user declines the handler prompt and
confirms the second prompt, the literal `fix_command` is executed as a
shell command — so the literal command is not reserved to names without a
handler. -/
theorem literal_command_despite_handler_counterexample :
    (HealthFixer.fix_map envOk diskFullResult.name).isSome = true ∧
    diskFullResult.fix_available = true ∧
    HealthFixer.apply_fix envOk noThenYes diskFullResult =
      (some { success := true, message := "Fix applied", details := "" },
       [Effect.cmd ["sudo", "bash", "-c", "dnf autoremove && dnf clean all"]]) :=
  ⟨rfl, rfl, rfl⟩

/-- C8 amended: on a fixable Result the health dispatcher runs the named
handler when one matches the name and the user confirms; the literal
`fix_command` branch is reached when no handler matches, or when the
matching handler's prompt was declined, and (once its own prompt is
confirmed and the command is non-empty) executes the literal command. -/
theorem apply_fix_dispatch :
    (∀ (env : FixEnv) (user : ℕ → Bool) (r : CheckResult)
        (fr : FixResult × List Effect),
        r.fix_available = true →
        HealthFixer.fix_map env r.name = some fr →
        user 0 = true →
        HealthFixer.apply_fix env user r = (some fr.1, fr.2)) ∧
    (∀ (env : FixEnv) (user : ℕ → Bool) (r : CheckResult)
        (fr : FixResult × List Effect),
        r.fix_available = true →
        HealthFixer.fix_map env r.name = some fr →
        user 0 = false →
        HealthFixer.apply_fix env user r = HealthFixer.generic_fix env user 1 r) ∧
    (∀ (env : FixEnv) (user : ℕ → Bool) (r : CheckResult),
        r.fix_available = true →
        HealthFixer.fix_map env r.name = none →
        HealthFixer.apply_fix env user r = HealthFixer.generic_fix env user 0 r) ∧
    (∀ (env : FixEnv) (user : ℕ → Bool) (k : ℕ) (r : CheckResult),
        r.fix_command ≠ "" → user k = true →
        HealthFixer.generic_fix env user k r =
          (some { success := (env.run ["sudo", "bash", "-c", r.fix_command]).1
                  message :=
                    if (env.run ["sudo", "bash", "-c", r.fix_command]).1 then
                      "Fix applied" else "Fix failed"
                  details := (env.run ["sudo", "bash", "-c", r.fix_command]).2 },
           [Effect.cmd ["sudo", "bash", "-c", r.fix_command]])) ∧
    (∀ (env : FixEnv) (user : ℕ → Bool) (k : ℕ) (r : CheckResult),
        r.fix_command = "" →
        HealthFixer.generic_fix env user k r = (none, [])) := by
  refine ⟨?_, ?_, ?_, ?_, ?_⟩
  · intro env user r fr hav hmap hu
    unfold HealthFixer.apply_fix
    simp [hav, hmap, hu]
  · intro env user r fr hav hmap hu
    unfold HealthFixer.apply_fix
    simp [hav, hmap, hu]
  · intro env user r hav hmap
    unfold HealthFixer.apply_fix
    simp [hav, hmap]
  · intro env user k r hc hu
    unfold HealthFixer.generic_fix
    simp [hc, hu, runCommand]
  · intro env user k r hc
    unfold HealthFixer.generic_fix
    simp [hc]

/-- Witness for `apply_fix_dispatch`: confirming the handler prompt on the
same "Disk Space" Result runs the named disk-space handler. -/
theorem apply_fix_dispatch_witness :
    HealthFixer.apply_fix envOk (fun _ => true) diskFullResult =
      (some (HealthFixer.fix_disk_space envOk).1,
       (HealthFixer.fix_disk_space envOk).2) := by
  exact apply_fix_dispatch.1 envOk (fun _ => true) diskFullResult
    (HealthFixer.fix_disk_space envOk) rfl rfl rfl

/-- Outcome of `app.run()` as observed by the `main` entry point of
`fedchecker/main.py`: a normal return, a `KeyboardInterrupt`, or any other
exception with its text. -/
inductive AppOutcome where
  | finished
  | interrupted
  | crashed (msg : String)
deriving DecidableEq, Repr

/-- The process exit code `main` produces for each outcome: normal return
falls off the end of `main` (exit 0), `KeyboardInterrupt` is caught and
`sys.exit(0)`, any other `Exception` is caught and `sys.exit(1)`. -/
def main_exit_code : AppOutcome → ℕ
  | .finished => 0
  | .interrupted => 0
  | .crashed _ => 1

/-- C9: exit code 0 on clean exit, 0 on user interrupt, 1 on any other
unhandled top-level error. -/
theorem main_exit_codes :
    main_exit_code AppOutcome.finished = 0 ∧
    main_exit_code AppOutcome.interrupted = 0 ∧
    (∀ m, main_exit_code (AppOutcome.crashed m) = 1) :=
  ⟨rfl, rfl, fun _ => rfl⟩

end FedChecks

